import Mathlib

/-!
# Verification of the Wayland presentation backend (egl-wayland2)

A shallow embedding of the buffer-negotiation, swapchain and frame-submission
core of the Wayland EGL platform library, together with theorems checking the
natural-language specification against the code.

External effects (kernel ioctls, Wayland protocol round trips, driver EGL
calls) are modelled by explicit oracle records: each oracle field records the
outcome the corresponding external call would produce, and the embedded
functions consume those outcomes following the control flow of the C source.
Protocol requests sent by the code are accumulated in an explicit log so that
ordering properties ("X happens before the commit") are statable.
-/

/-! ## Basic constants (drm_fourcc.h, errno) -/

def DRM_FORMAT_INVALID : Nat := 0

def DRM_FORMAT_MOD_LINEAR : Nat := 0

def DRM_FORMAT_MOD_INVALID : Nat := 0x00ffffffffffffff

def ENOTTY : Nat := 25

def EBADF : Nat := 9

def ENOSYS : Nat := 38

/-! ## Synchronization timeline (wayland-timeline.c)

`WlTimeline` keeps the kernel syncobj handle and the current logical point.
The handle itself is opaque; only the point matters for the embedded logic.
-/

structure WlTimeline where
  point : Nat
  deriving DecidableEq, Repr

/-- Outcomes of the three kernel calls made by `eplWlTimelineAttachSyncFD`:
`drmSyncobjCreate` (temporary object), `drmSyncobjImportSyncFile` and
`drmSyncobjTransfer`. -/
structure AttachOracle where
  syncobjCreate_ok : Bool
  importSyncFile_ok : Bool
  transfer_ok : Bool
  deriving DecidableEq, Repr

/-- Result of `eplWlTimelineAttachSyncFD`: the updated timeline, the success
flag, and the destination point passed to `drmSyncobjTransfer` when that call
was reached (`none` if the function bailed out before the transfer). -/
structure AttachResult where
  timeline : WlTimeline
  success : Bool
  transferDst : Option Nat
  deriving DecidableEq, Repr

/-- Embedding of `eplWlTimelineAttachSyncFD` (wayland-timeline.c:128-166).
Creates a temporary syncobj, imports the sync file into it, transfers it onto
`timeline->point + 1`, and increments `timeline->point` only after all three
kernel calls succeeded. -/
def eplWlTimelineAttachSyncFD (tl : WlTimeline) (o : AttachOracle) : AttachResult :=
  if ¬o.syncobjCreate_ok then
    { timeline := tl, success := false, transferDst := none }
  else if ¬o.importSyncFile_ok then
    { timeline := tl, success := false, transferDst := none }
  else if ¬o.transfer_ok then
    { timeline := tl, success := false, transferDst := some (tl.point + 1) }
  else
    { timeline := { point := tl.point + 1 }, success := true,
      transferDst := some (tl.point + 1) }

/-! ## Process-wide import-sync-file capability cache (wayland-platform.c) -/

/-- The one piece of process-global mutable state in the core:
`import_sync_file_supported`, guarded by a mutex in the C source. -/
structure GlobalState where
  import_sync_file_supported : Bool
  deriving DecidableEq, Repr

/-- Outcome of a `DMA_BUF_IOCTL_IMPORT_SYNC_FILE` ioctl attempt. -/
inductive IoctlOutcome where
  | ok : IoctlOutcome
  | err (errno : Nat) : IoctlOutcome
  deriving DecidableEq, Repr

/-- Outcome of a `DMA_BUF_IOCTL_EXPORT_SYNC_FILE` ioctl attempt. -/
inductive ExportOutcome where
  | ok (fd : Nat) : ExportOutcome
  | err (errno : Nat) : ExportOutcome
  deriving DecidableEq, Repr

/-- Result of `eplWlImportDmaBufSyncFile`: the updated global capability
state, the return value, and whether the ioctl was actually attempted. -/
structure ImportSyncResult where
  g : GlobalState
  ret : Bool
  attempted : Bool
  deriving DecidableEq, Repr

/-- Embedding of `eplWlImportDmaBufSyncFile` (wayland-platform.c:316-337).
If the cached capability flag is clear, fail immediately without issuing the
ioctl; otherwise attempt the ioctl, and on ENOTTY/EBADF/ENOSYS permanently
clear the flag. -/
def eplWlImportDmaBufSyncFile (g : GlobalState) (o : IoctlOutcome) : ImportSyncResult :=
  if g.import_sync_file_supported then
    match o with
    | .ok => { g := g, ret := true, attempted := true }
    | .err e =>
      if e = ENOTTY ∨ e = EBADF ∨ e = ENOSYS then
        { g := { import_sync_file_supported := false }, ret := false, attempted := true }
      else
        { g := g, ret := false, attempted := true }
  else
    { g := g, ret := false, attempted := false }

/-- Result of `eplWlExportDmaBufSyncFile`: updated global state, the returned
fd (`none` stands for -1), and whether the ioctl was attempted. -/
structure ExportSyncResult where
  g : GlobalState
  fd : Option Nat
  attempted : Bool
  deriving DecidableEq, Repr

/-- Embedding of `eplWlExportDmaBufSyncFile` (wayland-platform.c:339-360).
Same capability gating and negative caching as the import path. -/
def eplWlExportDmaBufSyncFile (g : GlobalState) (o : ExportOutcome) : ExportSyncResult :=
  if g.import_sync_file_supported then
    match o with
    | .ok fd => { g := g, fd := some fd, attempted := true }
    | .err e =>
      if e = ENOTTY ∨ e = EBADF ∨ e = ENOSYS then
        { g := { import_sync_file_supported := false }, fd := none, attempted := true }
      else
        { g := g, fd := none, attempted := true }
  else
    { g := g, fd := none, attempted := false }

/-! ## Per-surface dma-buf feedback (wayland-surface.c)

`SurfaceFeedbackState` mirrors the C struct of the same name.  The two
modifier arrays are parallel to the driver format's modifier list for the
surface, so they are lists of booleans of that length.
The fields of the embedded `WlDmaBufFeedbackCommon` base that the tranche
logic reads (`error`, `tranche_target_device`, `tranche_flags`) are inlined.
-/

structure SurfaceFeedbackState where
  error : Bool
  tranche_target_device : Nat
  tranche_flags : Nat
  modifiers_supported : List Bool
  linear_supported : Bool
  tranche_modifiers_supported : List Bool
  tranche_linear_supported : Bool
  modifiers_changed : Bool
  deriving DecidableEq, Repr

/-- The display-instance fields consumed by the embedded code
(wayland-display.h `WlDisplayInstance`). -/
structure WlDisplayInstance where
  /-- `globals.syncobj != NULL`: explicit sync is in use. -/
  syncobj : Bool
  supports_implicit_sync : Bool
  /-- `supports_EGL_ANDROID_native_fence_sync`. -/
  supports_native_fence : Bool
  /-- `render_device_id[0..render_device_id_count)`: dev_t ids of the primary
  and render nodes of the render device. -/
  render_device_id : List Nat
  force_prime : Bool
  deriving DecidableEq, Repr

/-- Embedding of `eplWlDmaBufFeedbackCommonTrancheDone` (wayland-dmabuf.c:75-79)
as it acts on the surface feedback state: reset the per-tranche device/flags. -/
def surfaceFeedbackCommonTrancheDone (st : SurfaceFeedbackState) : SurfaceFeedbackState :=
  { st with tranche_target_device := 0, tranche_flags := 0 }

/-- Embedding of `SurfaceFeedbackHasModifiers` (wayland-surface.c:300-312):
scan the driver modifier list; return true if some entry is supported or
(inside the loop) linear is supported. -/
def SurfaceFeedbackHasModifiers (st : SurfaceFeedbackState) : Bool :=
  st.modifiers_supported.any (fun b => b || st.linear_supported)

/-- Embedding of `OnSurfaceFeedbackTrancheDone` (wayland-surface.c:356-388).
The C source computes `use_tranche` by scanning `render_device_id` and
setting it, with a break, when `tranche_target_device` is UNEQUAL to the
entry; when `use_tranche` is set, the per-tranche accumulators are merged
into (they replace) the surface-level support vectors and are cleared. -/
def OnSurfaceFeedbackTrancheDone (inst : WlDisplayInstance) (st : SurfaceFeedbackState) :
    SurfaceFeedbackState :=
  let use_tranche :=
    if ¬st.error ∧ ¬SurfaceFeedbackHasModifiers st then
      inst.render_device_id.any (fun d => st.tranche_target_device ≠ d)
    else false
  let st' :=
    if use_tranche then
      { st with
        modifiers_supported := st.tranche_modifiers_supported,
        tranche_modifiers_supported := st.tranche_modifiers_supported.map (fun _ => false),
        linear_supported := st.tranche_linear_supported,
        tranche_linear_supported := false }
    else st
  surfaceFeedbackCommonTrancheDone st'

/-- What the specification says `OnSurfaceFeedbackTrancheDone` does with the
tranche: merge it into the surface support vector exactly when the tranche's
target device matches one of the render device's known device ids (and the
surface has not already settled on a modifier set and is not in error). -/
def specTrancheMerged (inst : WlDisplayInstance) (st : SurfaceFeedbackState) : Bool :=
  (¬st.error ∧ ¬SurfaceFeedbackHasModifiers st
    ∧ st.tranche_target_device ∈ inst.render_device_id : Bool)

/-! ## Default dma-buf feedback (wayland-dmabuf.c)

The default-feedback negotiation session.  A `WlDmaBufFeedbackTableEntry` is
one row of the mmap'ed format table; `DefaultFeedbackState` mirrors the C
struct (with the `WlDmaBufFeedbackCommon` base inlined).  The C keeps the
format table as a pointer plus length, with `NULL` only when the length is
zero or no table arrived; the embedding uses a plain list, with the empty
list standing for the NULL table.
-/

structure WlDmaBufFeedbackTableEntry where
  fourcc : Nat
  modifier : Nat
  deriving DecidableEq, Repr

structure DefaultFeedbackTranche where
  target_device : Nat
  flags : Nat
  formats : List WlDmaBufFeedbackTableEntry
  deriving DecidableEq, Repr

structure DefaultFeedbackState where
  error : Bool
  format_table : List WlDmaBufFeedbackTableEntry
  main_device : Nat
  tranche_target_device : Nat
  tranche_flags : Nat
  tranche_formats : List WlDmaBufFeedbackTableEntry
  tranches : List DefaultFeedbackTranche
  done : Bool
  deriving DecidableEq, Repr

def initialDefaultFeedbackState : DefaultFeedbackState :=
  { error := false, format_table := [], main_device := 0, tranche_target_device := 0,
    tranche_flags := 0, tranche_formats := [], tranches := [], done := false }

/-- Embedding of `eplWlDmaBufFeedbackCommonFormatTable` (wayland-dmabuf.c:81-112)
for the default-feedback state: drop any previous table, then install the new
mmap.  The event payload is `none` when the mmap of a nonempty table failed
(which sets the session error flag), and `some t` for a successful map (with
`some []` standing for a zero-size table, for which the C never maps and
leaves the table NULL). -/
def OnDefaultFeedbackFormatTable (st : DefaultFeedbackState)
    (mapped : Option (List WlDmaBufFeedbackTableEntry)) : DefaultFeedbackState :=
  match mapped with
  | some t => { st with format_table := t }
  | none => { st with format_table := [], error := true }

/-- Embedding of `eplWlDmaBufFeedbackCommonMainDevice` (wayland-dmabuf.c:114-123). -/
def OnDefaultFeedbackMainDevice (st : DefaultFeedbackState) (d : Nat) : DefaultFeedbackState :=
  { st with main_device := d }

/-- Embedding of `eplWlDmaBufFeedbackCommonTrancheTargetDevice`
(wayland-dmabuf.c:125-134). -/
def OnDefaultFeedbackTrancheTargetDevice (st : DefaultFeedbackState) (d : Nat) :
    DefaultFeedbackState :=
  { st with tranche_target_device := d }

/-- Embedding of `eplWlDmaBufFeedbackCommonTrancheFlags` (wayland-dmabuf.c:136-142). -/
def OnDefaultFeedbackTrancheFlags (st : DefaultFeedbackState) (f : Nat) : DefaultFeedbackState :=
  { st with tranche_flags := f }

/-- Embedding of `OnDefaultFeedbackTrancheFormats` (wayland-dmabuf.c:320-363).
Ignore the event if the session is already in error, the index array is
empty, or no format table is mapped.  A failed `wl_array_add` (out of
memory, `alloc_ok = false`) sets the session error flag.  Otherwise each
index is resolved against the format table; an out-of-range index is
recorded as a `DRM_FORMAT_INVALID` placeholder to be filtered out when the
results are compiled at the end. -/
def OnDefaultFeedbackTrancheFormats (st : DefaultFeedbackState) (alloc_ok : Bool)
    (indices : List Nat) : DefaultFeedbackState :=
  if st.error then st
  else if indices.length = 0 ∨ st.format_table.length = 0 then st
  else if ¬alloc_ok then { st with error := true }
  else
    { st with tranche_formats := st.tranche_formats ++ indices.map (fun i =>
        if i < st.format_table.length then
          st.format_table.getD i ⟨DRM_FORMAT_INVALID, DRM_FORMAT_MOD_INVALID⟩
        else
          ⟨DRM_FORMAT_INVALID, DRM_FORMAT_MOD_INVALID⟩) }

/-- Embedding of `ProcessDefaultTranche` (wayland-dmabuf.c:284-304), the
handler body for a `tranche_done` event: snapshot the accumulated entries
into the completed tranche list (a failed `calloc`, `calloc_ok = false`,
sets the error flag and returns early), then reset the per-tranche
device/flags accumulators. -/
def ProcessDefaultTranche (st : DefaultFeedbackState) (calloc_ok : Bool) : DefaultFeedbackState :=
  if ¬st.error ∧ st.tranche_formats.length > 0 then
    if ¬calloc_ok then { st with error := true }
    else
      { st with
        tranches := st.tranches ++ [{ target_device := st.tranche_target_device,
                                      flags := st.tranche_flags,
                                      formats := st.tranche_formats }],
        tranche_formats := [],
        tranche_target_device := 0, tranche_flags := 0 }
  else
    { st with tranche_target_device := 0, tranche_flags := 0 }

/-- Embedding of `OnDefaultFeedbackDone` (wayland-dmabuf.c:306-311). -/
def OnDefaultFeedbackDone (st : DefaultFeedbackState) : DefaultFeedbackState :=
  { st with done := true }

/-- One event delivered to the default-feedback listener
(`DEFAULT_FEEDBACK_LISTENER`), with the allocation outcomes that the
corresponding handler would consume. -/
inductive DefaultFeedbackEvent where
  | formatTable (mapped : Option (List WlDmaBufFeedbackTableEntry)) : DefaultFeedbackEvent
  | mainDevice (d : Nat) : DefaultFeedbackEvent
  | trancheTargetDevice (d : Nat) : DefaultFeedbackEvent
  | trancheFlags (f : Nat) : DefaultFeedbackEvent
  | trancheFormats (alloc_ok : Bool) (indices : List Nat) : DefaultFeedbackEvent
  | trancheDone (calloc_ok : Bool) : DefaultFeedbackEvent
  | done : DefaultFeedbackEvent
  deriving DecidableEq, Repr

/-- Dispatch of one listener event, mirroring `DEFAULT_FEEDBACK_LISTENER`
(wayland-dmabuf.c:365-374). -/
def handleDefaultFeedbackEvent (st : DefaultFeedbackState) :
    DefaultFeedbackEvent → DefaultFeedbackState
  | .formatTable mapped => OnDefaultFeedbackFormatTable st mapped
  | .mainDevice d => OnDefaultFeedbackMainDevice st d
  | .trancheTargetDevice d => OnDefaultFeedbackTrancheTargetDevice st d
  | .trancheFlags f => OnDefaultFeedbackTrancheFlags st f
  | .trancheFormats alloc_ok indices => OnDefaultFeedbackTrancheFormats st alloc_ok indices
  | .trancheDone calloc_ok => ProcessDefaultTranche st calloc_ok
  | .done => OnDefaultFeedbackDone st

/-! ### Finalizing a session (`FinishDefaultFeedback`) -/

/-- One format of a finalized `WlFormatList` (wayland-dmabuf.h `WlDmaBufFormat`). -/
structure WlDmaBufFormat where
  fourcc : Nat
  modifiers : List Nat
  deriving DecidableEq, Repr

/-- A finalized `WlFormatList` (wayland-dmabuf.h). -/
structure WlFormatList where
  formats : List WlDmaBufFormat
  deriving DecidableEq, Repr

/-- The linear dedup-append of a fourcc code into the `fourccs` array
(wayland-dmabuf.c:188-204): scan for the value, append only if absent. -/
def addUniqueFourcc (l : List Nat) (f : Nat) : List Nat :=
  if f ∈ l then l else l ++ [f]

/-- The linear dedup-append of a (fourcc, modifier) pair into the `modifiers`
array (wayland-dmabuf.c:206-223). -/
def addUniquePair (l : List WlDmaBufFeedbackTableEntry) (e : WlDmaBufFeedbackTableEntry) :
    List WlDmaBufFeedbackTableEntry :=
  if l.any (fun m => m.fourcc = e.fourcc ∧ m.modifier = e.modifier) then l else l ++ [e]

/-- Accumulation of one table entry from a relevant tranche
(wayland-dmabuf.c:176-224): skip unrecognized formats, then dedup-add the
fourcc and the (fourcc, modifier) pair.  `fmtKnown` stands for
`eplFormatInfoLookup(...) != NULL`; the lookup table itself
(`FORMAT_INFO_LIST`, built elsewhere in the library) is a parameter. -/
def collectEntry (fmtKnown : Nat → Bool)
    (acc : List Nat × List WlDmaBufFeedbackTableEntry)
    (e : WlDmaBufFeedbackTableEntry) : List Nat × List WlDmaBufFeedbackTableEntry :=
  if ¬fmtKnown e.fourcc then acc
  else (addUniqueFourcc acc.1 e.fourcc, addUniquePair acc.2 e)

/-- The tranche loop of `FinishDefaultFeedback` (wayland-dmabuf.c:165-225):
tranches whose target device differs from the session's main device are
dropped; the rest contribute their entries. -/
def collectTranches (fmtKnown : Nat → Bool) (main_device : Nat)
    (ts : List DefaultFeedbackTranche) : List Nat × List WlDmaBufFeedbackTableEntry :=
  ts.foldl (fun acc t =>
    if t.target_device ≠ main_device then acc
    else t.formats.foldl (collectEntry fmtKnown) acc) ([], [])

/-- Embedding of `FinishDefaultFeedback` (wayland-dmabuf.c:144-282).
The `qsort(..., eplWlCompareU32)` call is modelled by an insertion sort in
ascending order; the fourcc array is duplicate-free at that point, so every
comparison sort produces the same list.  `alloc_ok = false` stands for any
of the `wl_array_add`/`malloc` failures inside the function, all of which
make it return NULL. -/
def FinishDefaultFeedback (fmtKnown : Nat → Bool) (alloc_ok : Bool)
    (st : DefaultFeedbackState) : Option WlFormatList :=
  if st.error then none
  else
    let acc := collectTranches fmtKnown st.main_device st.tranches
    if ¬alloc_ok then none
    else if acc.1.length = 0 ∨ acc.2.length = 0 then none
    else
      some { formats := (acc.1.insertionSort (· ≤ ·)).map (fun f =>
        { fourcc := f,
          modifiers := (acc.2.filter (fun m => m.fourcc = f)).map (fun m => m.modifier) }) }

/-- Embedding of `eplWlDmaBufFeedbackGetDefault` (wayland-dmabuf.c:490-531) on
the version-4 path (`GetDefaultFeedbackV4`): fold the listener events, mark
the session in error if a protocol round trip failed, then compile the
result.  All partial tranche state is discarded afterwards (a memory-release
step with no observable effect in the model). -/
def eplWlDmaBufFeedbackGetDefault (fmtKnown : Nat → Bool)
    (events : List DefaultFeedbackEvent) (roundtrip_ok finish_alloc_ok : Bool) :
    Option WlFormatList :=
  let st := events.foldl handleDefaultFeedbackEvent initialDefaultFeedbackState
  let st := if roundtrip_ok then st else { st with error := true }
  FinishDefaultFeedback fmtKnown finish_alloc_ok st

/-! ## Present-buffer pool / swapchain (wayland-swapchain.c) -/

/-- `WlBufferStatus` (wayland-swapchain.h:35-55). -/
inductive WlBufferStatus where
  | IDLE : WlBufferStatus
  | IN_USE : WlBufferStatus
  | IDLE_NOTIFIED : WlBufferStatus
  deriving DecidableEq, Repr

/-- `WlPresentBuffer` (wayland-swapchain.h:63-100).  `id` stands for the
identity of the C struct (and of its `wl_buffer`, which is in 1:1
correspondence with it); `buffer` is the opaque driver color-buffer handle;
`dmabuf` is the retained file descriptor, `-1` when closed. -/
structure WlPresentBuffer where
  id : Nat
  buffer : Nat
  dmabuf : Int
  status : WlBufferStatus
  timeline : WlTimeline
  buffer_age : Nat
  deriving DecidableEq, Repr

/-- `WlSwapChain` (wayland-swapchain.h:105-156).  `current_back` holds the
`id` of the current back buffer, or `none` for the NULL pointer (PRIME). -/
structure WlSwapChain where
  width : Nat
  height : Nat
  render_fourcc : Nat
  present_fourcc : Nat
  modifier : Nat
  prime : Bool
  present_buffers : List WlPresentBuffer
  current_back : Option Nat
  render_buffer : Nat
  deriving DecidableEq, Repr

/-- The ids of the buffers in the pool, in list order. -/
def poolIds (sc : WlSwapChain) : List Nat :=
  sc.present_buffers.map (fun b => b.id)

/-- Look up a present buffer by id (pointer dereference in the C). -/
def findBuf (sc : WlSwapChain) (bid : Nat) : Option WlPresentBuffer :=
  sc.present_buffers.find? (fun b => b.id = bid)

/-- Set the status of the buffer with the given id. -/
def setStatus (sc : WlSwapChain) (bid : Nat) (s : WlBufferStatus) : WlSwapChain :=
  { sc with present_buffers :=
      sc.present_buffers.map (fun b => if b.id = bid then { b with status := s } else b) }

/-- Embedding of `on_buffer_release` (wayland-swapchain.c:68-94) on the
buffer list: find the buffer whose `wl_buffer` fired the release event; if it
is IN_USE, mark it IDLE_NOTIFIED; move it to the end of the list so the
oldest-released buffer is preferred for reuse. -/
def releaseUpdate : List WlPresentBuffer → Nat → List WlPresentBuffer
  | [], _ => []
  | b :: rest, wbuf =>
    if b.id = wbuf then
      let b' := if b.status = WlBufferStatus.IN_USE
                then { b with status := WlBufferStatus.IDLE_NOTIFIED } else b
      rest ++ [b']
    else b :: releaseUpdate rest wbuf

/-- `on_buffer_release` at the swapchain level. -/
def on_buffer_release (sc : WlSwapChain) (wbuf : Nat) : WlSwapChain :=
  { sc with present_buffers := releaseUpdate sc.present_buffers wbuf }

/-! ### Explicit-sync release check -/

/-- Outcome of the `drmSyncobjTimelineWait(..., WAIT_AVAILABLE)` call over
the non-idle buffers' timeline points. -/
inductive SyncobjWaitOutcome where
  /-- `ret == 0`: the point of the buffer at position `first` among the
  non-idle buffers became available. -/
  | signaled (first : Nat) : SyncobjWaitOutcome
  /-- `errno == ETIME || errno == EINTR`: nothing freed up in time. -/
  | timedOut : SyncobjWaitOutcome
  /-- any other error. -/
  | failed : SyncobjWaitOutcome
  deriving DecidableEq, Repr

structure ExplicitCheckOracle where
  wait : SyncobjWaitOutcome
  /-- Success of `WaitTimelinePoint` (GPU wait via `eglWaitSync`, with a CPU
  `drmSyncobjTimelineWait` fallback) on the signaled buffer's release point. -/
  waitTimelinePoint_ok : Bool
  deriving DecidableEq, Repr

/-- Embedding of `CheckBufferReleaseExplicit` (wayland-swapchain.c:501-591).
Returns the updated swapchain and the C return value (`-1` on error, else the
number of non-idle buffers checked, `0` when there was nothing to wait on).
The kernel guarantees `first < count` for a successful wait; a `first` out of
range is mapped to the error return. -/
def CheckBufferReleaseExplicit (sc : WlSwapChain) (o : ExplicitCheckOracle) :
    WlSwapChain × Int :=
  let nonIdle := sc.present_buffers.filter (fun b => b.status ≠ WlBufferStatus.IDLE)
  if nonIdle.length = 0 then (sc, 0)
  else
    match o.wait with
    | .signaled first =>
      if h : first < nonIdle.length then
        if o.waitTimelinePoint_ok then
          (setStatus sc (nonIdle.get ⟨first, h⟩).id WlBufferStatus.IDLE,
           (nonIdle.length : Int))
        else (sc, -1)
      else (sc, -1)
    | .timedOut => (sc, (nonIdle.length : Int))
    | .failed => (sc, -1)

/-! ### Implicit-sync release check -/

/-- Outcome of the `poll()` over the IDLE_NOTIFIED buffers' dma-buf fds. -/
inductive PollOutcome where
  /-- `ret > 0`: the listed buffer ids had `POLLOUT` set. -/
  | ready (outIds : List Nat) : PollOutcome
  /-- `ret == 0` or `ETIME`/`EINTR`. -/
  | timedOut : PollOutcome
  | failed : PollOutcome
  deriving DecidableEq, Repr

structure ImplicitCheckOracle where
  /-- `wl_display_dispatch_queue_pending` succeeded. -/
  dispatch_ok : Bool
  /-- `wl_buffer::release` events delivered by that dispatch. -/
  dispatch_events : List Nat
  /-- Per buffer id: `WaitImplicitFence` (export the dma-buf's sync file and
  `eglWaitSync` it on the GPU) succeeded. -/
  waitImplicitFence_ok : Nat → Bool
  poll : PollOutcome

/-- The first pass of `CheckBufferReleaseImplicit` (wayland-swapchain.c:642-666):
walk the buffers; for each IDLE_NOTIFIED one, if implicit sync is usable try
`WaitImplicitFence` (success marks it IDLE and returns 1 immediately, failure
counts it for the later poll); if implicit sync is not usable at all, just
mark the oldest released buffer IDLE and return 1.  Returns the updated list,
an early-return value if any, and the count of poll candidates. -/
def implicitFirstPass (inst : WlDisplayInstance) (o : ImplicitCheckOracle) :
    List WlPresentBuffer → List WlPresentBuffer × Option Int × Nat
  | [] => ([], none, 0)
  | b :: rest =>
    if b.status = WlBufferStatus.IDLE_NOTIFIED then
      if b.dmabuf ≥ 0 ∧ inst.supports_implicit_sync then
        if o.waitImplicitFence_ok b.id then
          ({ b with status := WlBufferStatus.IDLE } :: rest, some 1, 0)
        else
          let r := implicitFirstPass inst o rest
          (b :: r.1, r.2.1, r.2.2 + 1)
      else
        ({ b with status := WlBufferStatus.IDLE } :: rest, some 1, 0)
    else
      let r := implicitFirstPass inst o rest
      (b :: r.1, r.2.1, r.2.2)

/-- Embedding of `CheckBufferReleaseImplicit` (wayland-swapchain.c:627-720).
After dispatching pending events (which may deliver `wl_buffer::release`
notifications), run the first pass; if it produced poll candidates, poll
their dma-buf fds for write-readiness and mark the ready ones IDLE. -/
def CheckBufferReleaseImplicit (inst : WlDisplayInstance) (sc : WlSwapChain)
    (o : ImplicitCheckOracle) : WlSwapChain × Int :=
  if ¬o.dispatch_ok then (sc, -1)
  else
    let sc := { sc with present_buffers :=
        o.dispatch_events.foldl releaseUpdate sc.present_buffers }
    let fp := implicitFirstPass inst o sc.present_buffers
    let sc := { sc with present_buffers := fp.1 }
    match fp.2.1 with
    | some r => (sc, r)
    | none =>
      if fp.2.2 = 0 then (sc, 0)
      else
        match o.poll with
        | .ready outIds =>
          ({ sc with present_buffers := sc.present_buffers.map (fun b =>
              if b.status = WlBufferStatus.IDLE_NOTIFIED ∧ b.id ∈ outIds then
                { b with status := WlBufferStatus.IDLE }
              else b) },
           (fp.2.2 : Int))
        | .timedOut => (sc, (fp.2.2 : Int))
        | .failed => (sc, -1)

/-! ### Buffer allocation -/

/-- `MAX_PRESENT_BUFFERS` (wayland-swapchain.c:37). -/
def MAX_PRESENT_BUFFERS : Nat := 4

/-- Oracle for `SwapChainAppendPresentBuffer` (wayland-swapchain.c:190-246):
the `calloc`, `eplWlTimelineInit` and `ShareDmaBuf` outcomes, plus the
identity of the freshly created buffer. -/
structure AppendOracle where
  calloc_ok : Bool
  timeline_ok : Bool
  share_ok : Bool
  buffer_id : Nat
  deriving DecidableEq, Repr

/-- Embedding of `SwapChainAppendPresentBuffer` (wayland-swapchain.c:190-246).
The new buffer starts IDLE; with explicit sync a timeline is created and the
dma-buf fd is closed; without explicit sync the release listener is
registered, and the fd is kept open only if implicit sync is supported.  New
buffers are added to the front of the list (`glvnd_list_add`).  Returns the
extended swapchain and the new buffer, or `none` on failure (in which case
nothing was appended). -/
def SwapChainAppendPresentBuffer (inst : WlDisplayInstance) (sc : WlSwapChain)
    (dmabuf : Int) (o : AppendOracle) : Option (WlSwapChain × WlPresentBuffer) :=
  if ¬o.calloc_ok then none
  else if inst.syncobj ∧ ¬o.timeline_ok then none
  else if ¬o.share_ok then none
  else
    let fd : Int := if inst.syncobj then -1
                    else if ¬inst.supports_implicit_sync then -1
                    else dmabuf
    let buf : WlPresentBuffer :=
      { id := o.buffer_id, buffer := 0, dmabuf := fd,
        status := WlBufferStatus.IDLE, timeline := { point := 0 }, buffer_age := 0 }
    some ({ sc with present_buffers := buf :: sc.present_buffers }, buf)

/-- Oracle for `eplWlSwapChainCreatePresentBuffer` (wayland-swapchain.c:248-281):
the driver alloc/export outcomes, the fresh handle and fd, and the append
step's oracle. -/
structure CreateBufOracle where
  alloc_ok : Bool
  export_ok : Bool
  colorbuf : Nat
  dmabuf_fd : Nat
  append : AppendOracle
  deriving DecidableEq, Repr

/-- Embedding of `eplWlSwapChainCreatePresentBuffer` (wayland-swapchain.c:248-281):
allocate a color buffer, export it as a dma-buf, append it to the pool, and
record the driver handle on the new buffer. -/
def eplWlSwapChainCreatePresentBuffer (inst : WlDisplayInstance) (sc : WlSwapChain)
    (o : CreateBufOracle) : Option (WlSwapChain × WlPresentBuffer) :=
  if ¬o.alloc_ok then none
  else if ¬o.export_ok then none
  else
    match SwapChainAppendPresentBuffer inst sc (o.dmabuf_fd : Int) o.append with
    | none => none
    | some (sc', buf) =>
      let buf' := { buf with buffer := o.colorbuf }
      some ({ sc' with present_buffers :=
                sc'.present_buffers.map (fun b => if b.id = buf.id then buf' else b) },
            buf')

/-! ### `eplWlSwapChainFindFreePresentBuffer` -/

/-- One iteration of the blocking wait loop: the release-check outcomes, and
(implicit sync, when the check found nothing to wait on) the blocking
`wl_display_dispatch_queue` outcome. -/
structure FindIterOracle where
  explicitCheck : ExplicitCheckOracle
  implicitCheck : ImplicitCheckOracle
  dispatch_ok : Bool
  dispatch_events : List Nat

/-- Oracle for a whole `eplWlSwapChainFindFreePresentBuffer` call. -/
structure FindOracle where
  initialExplicit : ExplicitCheckOracle
  initialImplicit : ImplicitCheckOracle
  createBuf : CreateBufOracle
  iters : List FindIterOracle

/-- Result of `eplWlSwapChainFindFreePresentBuffer`: a buffer id, a NULL
return, or `blocked` when the oracle's iteration list ran out while the C
code would still be waiting for a buffer to free up. -/
inductive FindResult where
  | found (bid : Nat) : FindResult
  | fail : FindResult
  | blocked : FindResult
  deriving DecidableEq, Repr

/-- The head of each iteration of the `while (1)` loop of
`eplWlSwapChainFindFreePresentBuffer` (wayland-swapchain.c:746-762): scan the
pool for an IDLE buffer and return it; otherwise, if the pool is below
`MAX_PRESENT_BUFFERS`, allocate and return a new buffer (or fail).  Returns
`none` when the loop has to wait for a buffer to free up. -/
def findFreeScan (inst : WlDisplayInstance) (sc : WlSwapChain) (createO : CreateBufOracle) :
    Option (WlSwapChain × FindResult) :=
  match sc.present_buffers.find? (fun b => b.status = WlBufferStatus.IDLE) with
  | some b => some (sc, .found b.id)
  | none =>
    if sc.present_buffers.length < MAX_PRESENT_BUFFERS then
      match eplWlSwapChainCreatePresentBuffer inst sc createO with
      | some (sc', buf) => some (sc', .found buf.id)
      | none => some (sc, .fail)
    else none

/-- The `while (1)` loop of `eplWlSwapChainFindFreePresentBuffer`
(wayland-swapchain.c:744-798): scan/allocate via `findFreeScan`; when the
pool is full, run the blocking release check (explicit: indefinite kernel
wait; implicit: bounded poll, then a blocking event dispatch when there was
nothing to wait on yet) and try again. -/
def findFreeLoop (inst : WlDisplayInstance) (createO : CreateBufOracle) :
    List FindIterOracle → WlSwapChain → WlSwapChain × FindResult
  | [], sc =>
    match findFreeScan inst sc createO with
    | some r => r
    | none => (sc, .blocked)
  | it :: rest, sc =>
    match findFreeScan inst sc createO with
    | some r => r
    | none =>
      if inst.syncobj then
        let r := CheckBufferReleaseExplicit sc it.explicitCheck
        if r.2 < 0 then (r.1, .fail)
        else findFreeLoop inst createO rest r.1
      else
        let r := CheckBufferReleaseImplicit inst sc it.implicitCheck
        if r.2 < 0 then (r.1, .fail)
        else if r.2 = 0 then
          if ¬it.dispatch_ok then (r.1, .fail)
          else
            findFreeLoop inst createO rest
              { r.1 with present_buffers :=
                  it.dispatch_events.foldl releaseUpdate r.1.present_buffers }
        else findFreeLoop inst createO rest r.1

/-- Embedding of `eplWlSwapChainFindFreePresentBuffer`
(wayland-swapchain.c:722-799): first a non-blocking release check (so that a
new buffer is not allocated unnecessarily), then the search/allocate/wait
loop. -/
def eplWlSwapChainFindFreePresentBuffer (inst : WlDisplayInstance) (sc : WlSwapChain)
    (o : FindOracle) : WlSwapChain × FindResult :=
  if inst.syncobj then
    let r := CheckBufferReleaseExplicit sc o.initialExplicit
    if r.2 < 0 then (r.1, .fail)
    else findFreeLoop inst o.createBuf o.iters r.1
  else
    let r := CheckBufferReleaseImplicit inst sc o.initialImplicit
    if r.2 < 0 then (r.1, .fail)
    else findFreeLoop inst o.createBuf o.iters r.1

/-! ## Surface state and frame submission (wayland-surface.c) -/

/-- `FRAME_TIMESTAMP_PADDING` (wayland-surface.c:51). -/
def FRAME_TIMESTAMP_PADDING : Nat := 500000

/-- The EGL errors raised by the embedded paths (`eplSetError`). -/
inductive EglError where
  | badNativeWindow : EglError
  | badAlloc : EglError
  deriving DecidableEq, Repr

/-- Wayland protocol requests and blocking calls issued by the frame
submission path, in program order. -/
inductive WlRequest where
  | dispatchPending : WlRequest
  | blockingDispatch : WlRequest
  | destroyFeedback : WlRequest
  | destroyFrameCallback : WlRequest
  | destroySwapSync : WlRequest
  | damageBuffer (x y w h : Int) : WlRequest
  | damageFull : WlRequest
  | setAcquirePoint (pt : Nat) : WlRequest
  | setReleasePoint (pt : Nat) : WlRequest
  | attach (bid : Nat) : WlRequest
  | setBarrier : WlRequest
  | setTimestamp (t : Nat) : WlRequest
  | newFeedback : WlRequest
  | waitBarrier : WlRequest
  | commit : WlRequest
  | newFrameCallback : WlRequest
  | sync : WlRequest
  | flush : WlRequest
  deriving DecidableEq, Repr

/-- The per-surface state (`EplImplSurface`, wayland-surface.c:96-249), with
the `current` and mutex-guarded `params` blocks flattened.  Outstanding
protocol objects (`frame_callback`, `last_swap_sync`,
`presentation_feedback`) are booleans: `true` iff non-NULL.  `fifo` stands
for `presentation_time != NULL && fifo != NULL` (the two are created
together); `feedback` is `none` when there is no per-surface feedback object
and `some changed` otherwise, where `changed` is its `modifiers_changed`
flag. -/
structure SurfaceState where
  native_window : Bool
  attached_width : Nat
  attached_height : Nat
  swap_interval : Int
  skip_update_callback : Nat
  pending_width : Nat
  pending_height : Nat
  swapchain : WlSwapChain
  force_realloc : Bool
  frame_callback : Bool
  last_swap_sync : Bool
  presentation_feedback : Bool
  last_present_timestamp : Nat
  last_present_refresh : Nat
  fifo : Bool
  commit_timer : Bool
  surface_syncobj : Bool
  damage_buffer_supported : Bool
  driver_fourcc : Nat
  present_fourcc : Nat
  surface_modifiers : List Nat
  driver_modifiers : List Nat
  feedback : Option Bool
  deriving DecidableEq, Repr

/-- Embedding of `DiscardPresentationFeedback` (wayland-surface.c:1114-1124):
read the presentation clock (recording "now" as the last presentation
timestamp when the read succeeds) and destroy the outstanding feedback
object. -/
def DiscardPresentationFeedback (s : SurfaceState) (clock_ok : Bool) (now : Nat) :
    SurfaceState × List WlRequest :=
  let s := if clock_ok then { s with last_present_timestamp := now } else s
  ({ s with presentation_feedback := false }, [WlRequest.destroyFeedback])

/-- An event on the surface's private queue, as consumed by the listeners
`FRAME_CALLBACK_LISTENER` (wayland-surface.c:1094-1108) and
`PRESENTATION_FEEDBACK_LISTENER` (wayland-surface.c:1110-1153). -/
inductive SurfaceEvent where
  /-- `on_frame_done` for the frame callback. -/
  | frameDone : SurfaceEvent
  /-- `on_frame_done` for the post-swap sync callback. -/
  | swapSyncDone : SurfaceEvent
  /-- `on_wp_presentation_feedback_presented` with the decoded timestamp and
  refresh period. -/
  | presented (ts refresh : Nat) : SurfaceEvent
  /-- `on_wp_presentation_feedback_discarded`; the clock read inside
  `DiscardPresentationFeedback` yields `now`. -/
  | discarded (now : Nat) : SurfaceEvent
  deriving DecidableEq, Repr

/-- Apply one dispatched surface-queue event to the surface state. -/
def applySurfaceEvent (s : SurfaceState) : SurfaceEvent → SurfaceState
  | .frameDone => { s with frame_callback := false }
  | .swapSyncDone => { s with last_swap_sync := false }
  | .presented ts refresh =>
    if s.presentation_feedback then
      { s with presentation_feedback := false,
               last_present_timestamp := ts, last_present_refresh := refresh }
    else s
  | .discarded now =>
    if s.presentation_feedback then (DiscardPresentationFeedback s true now).1 else s

/-- `frame_callback != NULL || last_swap_sync != NULL || presentation_feedback != NULL`. -/
def surfaceOutstanding (s : SurfaceState) : Bool :=
  s.frame_callback || s.last_swap_sync || s.presentation_feedback

/-- Embedding of `WaitForPreviousFrames` (wayland-surface.c:1161-1176): keep
dispatching the surface queue (blocking) until no pacing object from the
previous frame is outstanding.  Each oracle entry is one blocking dispatch:
its success flag and the events it delivers.  Returns the state, the success
flag, whether the loop actually finished (false when the oracle list was
exhausted while the C code would still be blocked), and the log. -/
def WaitForPreviousFrames (s : SurfaceState) :
    List (Bool × List SurfaceEvent) → SurfaceState × Bool × Bool × List WlRequest
  | [] => (s, true, ¬surfaceOutstanding s, [])
  | (ok, evs) :: rest =>
    if ¬surfaceOutstanding s then (s, true, true, [])
    else if ¬ok then (s, false, true, [.blockingDispatch])
    else
      let s' := evs.foldl applySurfaceEvent s
      let r := WaitForPreviousFrames s' rest
      (r.1, r.2.1, r.2.2.1, .blockingDispatch :: r.2.2.2)

/-! ### Swapchain creation and reallocation -/

/-- Oracle for `eplWlSwapChainCreate` (wayland-swapchain.c:316-430): the
`calloc`/queue/GBM/driver-import outcomes, the modifier the driver picked for
the GBM buffer, the fresh handles, and the oracle of the non-PRIME
append step. -/
structure SwapChainCreateOracle where
  calloc_ok : Bool
  queue_ok : Bool
  gbo_ok : Bool
  gbo_modifier : Nat
  gbo_fd_ok : Bool
  import_ok : Bool
  render_handle : Nat
  dmabuf_fd : Nat
  append : AppendOracle
  deriving DecidableEq, Repr

/-- Embedding of `eplWlSwapChainCreate` (wayland-swapchain.c:316-430): create
the renderable buffer through GBM, import it, and for non-PRIME register it
as the first present buffer and current back buffer.  Any failure after
partial allocation tears everything down and returns NULL (`none`). -/
def eplWlSwapChainCreate (inst : WlDisplayInstance) (width height render_fourcc present_fourcc : Nat)
    (prime : Bool) (o : SwapChainCreateOracle) : Option WlSwapChain :=
  if ¬o.calloc_ok then none
  else if ¬o.queue_ok then none
  else if ¬o.gbo_ok then none
  else if ¬o.gbo_fd_ok then none
  else if ¬o.import_ok then none
  else
    let sc : WlSwapChain :=
      { width := width, height := height, render_fourcc := render_fourcc,
        present_fourcc := present_fourcc, modifier := DRM_FORMAT_MOD_INVALID,
        prime := prime, present_buffers := [], current_back := none,
        render_buffer := o.render_handle }
    if prime then
      some { sc with modifier := DRM_FORMAT_MOD_LINEAR }
    else
      let sc := { sc with modifier := o.gbo_modifier }
      match SwapChainAppendPresentBuffer inst sc (o.dmabuf_fd : Int) o.append with
      | none => none
      | some (sc', buf) =>
        some { sc' with
          current_back := some buf.id,
          present_buffers := sc'.present_buffers.map (fun b =>
            if b.id = buf.id then { b with buffer := o.render_handle } else b) }

/-- Embedding of `SwapChainRealloc` (wayland-surface.c:537-614), for the case
where a current swapchain exists (it always does once the surface is
created).  Decides whether a replacement swapchain is needed (forced
reallocation, size change, or — when `allow_modifier_realloc` — a feedback
update that invalidates the current modifier) and creates it without
disturbing the active one.  Returns `none` on creation failure, `some none`
to keep the current swapchain, `some (some sc)` with the replacement. -/
def SwapChainRealloc (inst : WlDisplayInstance) (s : SurfaceState)
    (allow_modifier_realloc : Bool) (o : SwapChainCreateOracle) :
    Option (Option WlSwapChain) :=
  let width := s.pending_width
  let height := s.pending_height
  let needs_new : Bool :=
    if s.force_realloc then true
    else if width ≠ s.swapchain.width ∨ height ≠ s.swapchain.height then true
    else if allow_modifier_realloc ∧ s.feedback = some true then
      if s.swapchain.prime then decide (s.surface_modifiers.length > 0)
      else ¬s.surface_modifiers.contains s.swapchain.modifier
    else false
  if needs_new then
    let created :=
      if s.surface_modifiers.length > 0 then
        eplWlSwapChainCreate inst width height s.driver_fourcc s.present_fourcc false o
      else
        eplWlSwapChainCreate inst width height s.driver_fourcc s.present_fourcc true o
    match created with
    | none => none
    | some sc => some (some sc)
  else some none

/-- Embedding of `SetWindowSwapchain` (wayland-surface.c:646-667): point the
driver surface at the new swapchain's render buffer; on success install the
new swapchain (destroying the old) and clear the forced-reallocation flag; on
failure destroy the new swapchain and force a reallocation next frame. -/
def SetWindowSwapchain (s : SurfaceState) (newSc : WlSwapChain) (setBuffers_ok : Bool) :
    SurfaceState :=
  if setBuffers_ok then { s with swapchain := newSc, force_realloc := false }
  else { s with force_realloc := true }

/-- Replace the pool entry matching `buf.id` with `buf` (the C mutates the
buffer struct in place through its pointer). -/
def setBuf (sc : WlSwapChain) (buf : WlPresentBuffer) : WlSwapChain :=
  { sc with present_buffers := sc.present_buffers.map (fun b =>
      if b.id = buf.id then buf else b) }

/-- Modelled from the spec: the body of `eplWlSwapChainUpdateBufferAge` is
not among the sources under verification (only its declaration's caller at
wayland-surface.c:1524 is).  Per the spec's QueryBufferAge contract ("number
of frames since a given buffer was last the back buffer", 0 when tracking is
not meaningful), the just-presented buffer's age becomes 1 and every other
tracked buffer ages by one frame; only `buffer_age` fields change. -/
def eplWlSwapChainUpdateBufferAge (sc : WlSwapChain) (presented : Nat) : WlSwapChain :=
  { sc with present_buffers := sc.present_buffers.map (fun b =>
      if b.id = presented then { b with buffer_age := 1 }
      else if b.buffer_age > 0 then { b with buffer_age := b.buffer_age + 1 }
      else b) }

/-! ### Producer synchronization (`SyncRendering`) -/

/-- Oracle for `SyncRendering` (wayland-surface.c:1186-1251). -/
structure SyncOracle where
  createSync_ok : Bool
  dupFd_ok : Bool
  attach : AttachOracle
  import_ioctl : IoctlOutcome
  deriving DecidableEq, Repr

structure SyncRenderingResult where
  g : GlobalState
  buf : WlPresentBuffer
  success : Bool
  /-- whether a full CPU wait (`glFinish`) was performed. -/
  didFinish : Bool
  deriving DecidableEq, Repr

/-- Embedding of `SyncRendering` (wayland-surface.c:1186-1251): create a
native fence for the pending rendering and either attach it to the buffer's
timeline (explicit sync; the acquire/release requests are left to the
caller), attach it to the dma-buf as an implicit fence, or fall back to a
CPU `glFinish`. -/
def SyncRendering (inst : WlDisplayInstance) (g : GlobalState) (surface_syncobj : Bool)
    (buf : WlPresentBuffer) (o : SyncOracle) : SyncRenderingResult :=
  if ¬inst.supports_native_fence then
    { g := g, buf := buf, success := true, didFinish := true }
  else if ¬o.createSync_ok then
    { g := g, buf := buf, success := false, didFinish := false }
  else if ¬o.dupFd_ok then
    { g := g, buf := buf, success := false, didFinish := false }
  else if surface_syncobj then
    let r := eplWlTimelineAttachSyncFD buf.timeline o.attach
    { g := g, buf := { buf with timeline := r.timeline }, success := r.success,
      didFinish := false }
  else
    if buf.dmabuf < 0 ∨ ¬inst.supports_implicit_sync then
      { g := g, buf := buf, success := true, didFinish := true }
    else
      let r := eplWlImportDmaBufSyncFile g o.import_ioctl
      if r.ret then { g := r.g, buf := buf, success := true, didFinish := false }
      else { g := r.g, buf := buf, success := true, didFinish := true }

/-! ### `eplWlSwapBuffers` -/

/-- Oracle for one `eplWlSwapBuffers` call. -/
structure SwapOracle where
  /-- events delivered by the non-blocking dispatch at wayland-surface.c:1277. -/
  pending_events : List SurfaceEvent
  /-- outcomes for `SwapChainRealloc`'s swapchain creation. -/
  realloc : SwapChainCreateOracle
  /-- outcomes for the PRIME `eplWlSwapChainFindFreePresentBuffer` call. -/
  primeFind : FindOracle
  /-- `eglPlatformCopyColorBufferNVX` success (PRIME blit). -/
  blit_ok : Bool
  /-- outcomes for `SyncRendering`. -/
  syncR : SyncOracle
  /-- blocking dispatch iterations for `WaitForPreviousFrames`. -/
  waitPrev : List (Bool × List SurfaceEvent)
  /-- `clock_gettime` success and value inside `DiscardPresentationFeedback`. -/
  clock_ok : Bool
  now : Nat
  /-- `wp_presentation_feedback` creation succeeded. -/
  feedback_ok : Bool
  /-- `wl_surface_frame` creation succeeded. -/
  frame_cb_ok : Bool
  /-- display wrapper plus `wl_display_sync` creation succeeded. -/
  sync_ok : Bool
  /-- outcomes for the post-commit (next back buffer) find call. -/
  backFind : FindOracle
  /-- `eglPlatformSetColorBuffersNVX` success inside `SetWindowSwapchain`. -/
  setWindowSwapchain_setBuffers_ok : Bool
  /-- `eglPlatformSetColorBuffersNVX` success for the new back buffer. -/
  newBack_setBuffers_ok : Bool

/-- Result of `eplWlSwapBuffers`: the return value, any EGL error raised, the
updated process-global and surface state, and the log of protocol requests.
`blocked` is set when an oracle ran out of entries while the C code would
still be inside a blocking wait. -/
structure SwapResult where
  success : Bool
  err : Option EglError
  blocked : Bool
  g : GlobalState
  s : SurfaceState
  log : List WlRequest

/-- Embedding of `eplWlSwapBuffers` (wayland-surface.c:1253-1543).

Phases, in source order: bail out with EGL_BAD_NATIVE_WINDOW if the native
window is gone; dispatch pending events; reallocate the swapchain if needed
(not installing it yet); acquire the present buffer (PRIME: find a free
buffer and blit into it; non-PRIME: the current back buffer); attach the
producer fence; pace against the previous frame (interval > 0) or cancel its
outstanding pacing state (interval <= 0); send damage, explicit-sync points,
attach, pacing requests and commit; record the attached size; queue the
post-swap sync; flush and mark the buffer IN_USE; then install the
replacement swapchain, or (non-PRIME) pick the next back buffer — failures in
that last step set `force_realloc`.

The dropped `skip_update_callback` decrement on the `WaitForPreviousFrames`
error return reproduces the C control flow (`return EGL_FALSE` at
wayland-surface.c:1322 bypasses the `done:` label). -/
def eplWlSwapBuffers (inst : WlDisplayInstance) (g : GlobalState) (s0 : SurfaceState)
    (rects : List (Int × Int × Int × Int)) (o : SwapOracle) : SwapResult :=
  if ¬s0.native_window then
    { success := false, err := some .badNativeWindow, blocked := false,
      g := g, s := s0, log := [] }
  else
    let swap_interval := s0.swap_interval
    let s := { s0 with skip_update_callback := s0.skip_update_callback + 1 }
    -- the done: block: destroy any un-installed replacement swapchain and
    -- drop the update-callback guard
    let finish := fun (success : Bool) (err : Option EglError) (g : GlobalState)
        (s : SurfaceState) (log : List WlRequest) =>
      ({ success := success, err := err, blocked := false, g := g,
         s := { s with skip_update_callback := s.skip_update_callback - 1 },
         log := log } : SwapResult)
    let s := o.pending_events.foldl applySurfaceEvent s
    let log : List WlRequest := [.dispatchPending]
    match SwapChainRealloc inst s true o.realloc with
    | none => finish false (some .badAlloc) g s log
    | some new_swapchain =>
      -- acquire the present buffer
      let acquired : (SurfaceState × Nat) ⊕ SwapResult :=
        if s.swapchain.prime then
          let fr := eplWlSwapChainFindFreePresentBuffer inst s.swapchain o.primeFind
          let s := { s with swapchain := fr.1 }
          match fr.2 with
          | .blocked => .inr { success := false, err := none, blocked := true,
                               g := g, s := s, log := log }
          | .fail => .inr (finish false none g s log)
          | .found bid =>
            if ¬o.blit_ok then .inr (finish false (some .badAlloc) g s log)
            else .inl (s, bid)
        else
          match s.swapchain.current_back with
          | some bid => .inl (s, bid)
          | none =>
            -- unreachable: a non-PRIME swapchain always has a back buffer
            -- (the C would dereference a NULL pointer here)
            .inr (finish false none g s log)
      match acquired with
      | .inr r => r
      | .inl (s, present_buf) =>
        match findBuf s.swapchain present_buf with
        | none =>
          -- unreachable: the acquired id is a pool member by construction
          finish false none g s log
        | some buf0 =>
          let sr := SyncRendering inst g s.surface_syncobj buf0 o.syncR
          let g := sr.g
          let s := { s with swapchain := setBuf s.swapchain sr.buf }
          if ¬sr.success then finish false none g s log
          else
            -- pacing against the previous frame
            let paced : (SurfaceState × List WlRequest) ⊕ SwapResult :=
              if swap_interval > 0 then
                let w := WaitForPreviousFrames s o.waitPrev
                if ¬w.2.1 then
                  -- direct `return EGL_FALSE`: bypasses the done: block
                  .inr { success := false, err := some .badAlloc, blocked := false,
                         g := g, s := w.1, log := log ++ w.2.2.2 }
                else if ¬w.2.2.1 then
                  .inr { success := false, err := none, blocked := true,
                         g := g, s := w.1, log := log ++ w.2.2.2 }
                else .inl (w.1, log ++ w.2.2.2)
              else
                let dr := if s.presentation_feedback
                          then DiscardPresentationFeedback s o.clock_ok o.now
                          else (s, [])
                let s := dr.1
                let log := log ++ dr.2
                let sl :=
                  if s.frame_callback then
                    ({ s with frame_callback := false }, log ++ [.destroyFrameCallback])
                  else (s, log)
                let s := sl.1
                let log := sl.2
                if s.last_swap_sync then
                  .inl ({ s with last_swap_sync := false }, log ++ [.destroySwapSync])
                else .inl (s, log)
            match paced with
            | .inr r => r
            | .inl (s, log) =>
              -- damage
              let log := log ++
                (if rects.length > 0 ∧ s.damage_buffer_supported then
                  rects.map (fun r => WlRequest.damageBuffer r.1 r.2.1 r.2.2.1 r.2.2.2)
                else [WlRequest.damageFull])
              -- explicit-sync acquire/release points
              let sb :=
                if s.surface_syncobj then
                  match findBuf s.swapchain present_buf with
                  | some b =>
                    let acquirePt := b.timeline.point
                    let b' := { b with timeline := { point := b.timeline.point + 1 } }
                    ({ s with swapchain := setBuf s.swapchain b' },
                     log ++ [.setAcquirePoint acquirePt, .setReleasePoint b'.timeline.point])
                  | none => (s, log)
                else (s, log)
              let s := sb.1
              let log := sb.2 ++ [.attach present_buf]
              -- pacing protocol requests and commit
              let pc :=
                if s.fifo then
                  let log := log ++ [.setBarrier]
                  if swap_interval > 0 then
                    let log :=
                      if s.commit_timer ∧ s.last_present_timestamp ≠ 0 then
                        let timestamp := swap_interval.toNat * s.last_present_refresh
                        if timestamp ≥ FRAME_TIMESTAMP_PADDING then
                          log ++ [.setTimestamp
                            ((timestamp + s.last_present_timestamp + 2 ^ 64
                              - FRAME_TIMESTAMP_PADDING) % 2 ^ 64)]
                        else log
                      else log
                    let fl :=
                      if o.feedback_ok then
                        ({ s with presentation_feedback := true }, log ++ [.newFeedback])
                      else (s, log)
                    (fl.1, fl.2 ++ [.waitBarrier, .commit, .waitBarrier])
                  else (s, log)
                else
                  if o.frame_cb_ok then
                    ({ s with frame_callback := true }, log ++ [.newFrameCallback])
                  else (s, log)
              let s := pc.1
              let log := pc.2 ++ [.commit]
              -- update the native window's attached size
              let s := if s.native_window then
                  { s with attached_width := s.swapchain.width,
                           attached_height := s.swapchain.height }
                else s
              -- post-commit wl_display::sync
              let ss :=
                if o.sync_ok then ({ s with last_swap_sync := true }, log ++ [.sync])
                else (s, log)
              let s := ss.1
              let log := ss.2 ++ [.flush]
              let s :=
                { s with swapchain := setStatus s.swapchain present_buf WlBufferStatus.IN_USE }
              match new_swapchain with
              | some nsc =>
                finish true none g
                  (SetWindowSwapchain s nsc o.setWindowSwapchain_setBuffers_ok) log
              | none =>
                if ¬s.swapchain.prime then
                  let fr := eplWlSwapChainFindFreePresentBuffer inst s.swapchain o.backFind
                  let s := { s with swapchain := fr.1 }
                  match fr.2 with
                  | .blocked => { success := false, err := none, blocked := true,
                                  g := g, s := s, log := log }
                  | .fail => finish false none g { s with force_realloc := true } log
                  | .found next =>
                    if ¬o.newBack_setBuffers_ok then
                      finish false none g { s with force_realloc := true } log
                    else
                      match findBuf s.swapchain next with
                      | none => finish false none g s log -- unreachable
                      | some nb =>
                        let s := { s with swapchain :=
                          { s.swapchain with current_back := some next,
                                             render_buffer := nb.buffer } }
                        let s := { s with swapchain :=
                          eplWlSwapChainUpdateBufferAge s.swapchain present_buf }
                        finish true none g s log
                else finish true none g s log

/-! ## Auxiliary predicates used by the theorems -/

/-- The (fourcc, modifier) keys of a deduplicated entry array. -/
def pairKeys (l : List WlDmaBufFeedbackTableEntry) : List (Nat × Nat) :=
  l.map (fun e => (e.fourcc, e.modifier))

/-- Invariant of the `FinishDefaultFeedback` accumulator: the fourcc array
and the (fourcc, modifier) array are duplicate-free, and every collected
fourcc has at least one collected pair. -/
def collectInv (acc : List Nat × List WlDmaBufFeedbackTableEntry) : Prop :=
  acc.1.Nodup ∧ (pairKeys acc.2).Nodup ∧ ∀ x ∈ acc.1, ∃ e ∈ acc.2, e.fourcc = x

/-- Whether some buffer in the pool is IDLE. -/
def hasIdle (sc : WlSwapChain) : Prop :=
  ∃ b ∈ sc.present_buffers, b.status = WlBufferStatus.IDLE

instance (sc : WlSwapChain) : Decidable (hasIdle sc) := by
  unfold hasIdle; infer_instance

/-- The poll reported the buffer's dma-buf fd write-ready. -/
def pollReady (o : ImplicitCheckOracle) (i : Nat) : Prop :=
  match o.poll with
  | .ready ids => i ∈ ids
  | _ => False

/-- The status transition a `wl_buffer::release` notice may perform on one
buffer record: nothing, or IN_USE → IDLE_NOTIFIED. -/
def releaseStep (b b' : WlPresentBuffer) : Prop :=
  b' = b ∨ (b.status = WlBufferStatus.IN_USE
    ∧ b' = { b with status := WlBufferStatus.IDLE_NOTIFIED })

/-- The status transitions one `CheckBufferReleaseImplicit` call may perform
on one buffer record: nothing; IN_USE → IDLE_NOTIFIED (a release notice
delivered by its dispatch); or (IN_USE or IDLE_NOTIFIED) → IDLE, justified by
a successful release-fence GPU wait, a write-ready poll, or implicit sync
being unusable for the buffer (the grab-the-oldest-and-hope fallback). -/
def implicitStep (inst : WlDisplayInstance) (o : ImplicitCheckOracle)
    (b b' : WlPresentBuffer) : Prop :=
  b' = b
  ∨ (b.status = WlBufferStatus.IN_USE
      ∧ b' = { b with status := WlBufferStatus.IDLE_NOTIFIED })
  ∨ ((b.status = WlBufferStatus.IN_USE ∨ b.status = WlBufferStatus.IDLE_NOTIFIED)
      ∧ b' = { b with status := WlBufferStatus.IDLE }
      ∧ (o.waitImplicitFence_ok b.id = true ∨ pollReady o b.id ∨ b.dmabuf < 0
          ∨ inst.supports_implicit_sync = false))

/-- The status transition `implicitFirstPass` may perform on one buffer:
nothing, or IDLE_NOTIFIED → IDLE justified by a fence wait or by implicit
sync being unusable. -/
def firstPassStep (inst : WlDisplayInstance) (o : ImplicitCheckOracle)
    (b b' : WlPresentBuffer) : Prop :=
  b' = b
  ∨ (b.status = WlBufferStatus.IDLE_NOTIFIED
      ∧ b' = { b with status := WlBufferStatus.IDLE }
      ∧ (o.waitImplicitFence_ok b.id = true ∨ b.dmabuf < 0
          ∨ inst.supports_implicit_sync = false))

/-! ## Theorems -/

/-- C9: `eplWlTimelineAttachSyncFD` transfers the imported fence onto the
timeline's next counter value (`point + 1`), and exactly on success the
timeline's logical point is incremented by one — the new point being the
acquire point the caller must advertise; on any failure the point is left
unchanged. -/
theorem claimC9_attach_fence_point (tl : WlTimeline) (o : AttachOracle) :
    ((eplWlTimelineAttachSyncFD tl o).success = true →
      (eplWlTimelineAttachSyncFD tl o).timeline.point = tl.point + 1 ∧
      (eplWlTimelineAttachSyncFD tl o).transferDst = some (tl.point + 1)) ∧
    ((eplWlTimelineAttachSyncFD tl o).success = false →
      (eplWlTimelineAttachSyncFD tl o).timeline = tl) ∧
    (∀ d, (eplWlTimelineAttachSyncFD tl o).transferDst = some d → d = tl.point + 1) := by
  rcases o with ⟨c, i, t⟩
  rcases c <;> rcases i <;> rcases t <;> simp [eplWlTimelineAttachSyncFD]

/-- Witness for C9 at a concrete timeline and concrete kernel outcomes. -/
theorem claimC9_attach_fence_point_witness :
    (eplWlTimelineAttachSyncFD ⟨5⟩ ⟨true, true, true⟩).timeline.point = 6 ∧
    (eplWlTimelineAttachSyncFD ⟨5⟩ ⟨true, true, false⟩).timeline = ⟨5⟩ :=
  ⟨((claimC9_attach_fence_point ⟨5⟩ ⟨true, true, true⟩).1 (by decide)).1,
   (claimC9_attach_fence_point ⟨5⟩ ⟨true, true, false⟩).2.1 (by decide)⟩

/-- C8: once either sync-file ioctl wrapper fails with ENOTTY, EBADF or
ENOSYS, the process-wide capability flag is cleared; with the flag cleared,
both wrappers fail immediately without attempting the ioctl; the flag is
never turned back on; and frame submission (`SyncRendering` on the implicit
path) then consistently takes the CPU-block (`glFinish`) fallback. -/
theorem claimC8_import_sync_file_negative_cache (g : GlobalState) (io : IoctlOutcome)
    (eo : ExportOutcome) (e : Nat) :
    (g.import_sync_file_supported = false →
      eplWlImportDmaBufSyncFile g io = ⟨g, false, false⟩ ∧
      eplWlExportDmaBufSyncFile g eo = ⟨g, none, false⟩) ∧
    ((e = ENOTTY ∨ e = EBADF ∨ e = ENOSYS) →
      (eplWlImportDmaBufSyncFile g (.err e)).g.import_sync_file_supported = false ∧
      (eplWlExportDmaBufSyncFile g (.err e)).g.import_sync_file_supported = false) ∧
    ((eplWlImportDmaBufSyncFile g io).g.import_sync_file_supported = true →
      g.import_sync_file_supported = true) ∧
    ((eplWlExportDmaBufSyncFile g eo).g.import_sync_file_supported = true →
      g.import_sync_file_supported = true) ∧
    (∀ (inst : WlDisplayInstance) (buf : WlPresentBuffer) (so : SyncOracle),
      g.import_sync_file_supported = false →
      inst.supports_native_fence = true → so.createSync_ok = true → so.dupFd_ok = true →
      (SyncRendering inst g false buf so).didFinish = true ∧
      (SyncRendering inst g false buf so).success = true) := by
  refine ⟨?_, ?_, ?_, ?_, ?_⟩
  · intro h
    constructor
    · simp [eplWlImportDmaBufSyncFile, h]
    · simp [eplWlExportDmaBufSyncFile, h]
  · intro h
    constructor
    · by_cases hs : g.import_sync_file_supported <;>
        simp [eplWlImportDmaBufSyncFile, hs, h]
    · by_cases hs : g.import_sync_file_supported <;>
        simp [eplWlExportDmaBufSyncFile, hs, h]
  · intro h
    by_cases hs : g.import_sync_file_supported
    · exact hs
    · rcases io with _ | e' <;> simp [eplWlImportDmaBufSyncFile, hs] at h
  · intro h
    by_cases hs : g.import_sync_file_supported
    · exact hs
    · rcases eo with fd | e' <;> simp [eplWlExportDmaBufSyncFile, hs] at h
  · intro inst buf so hg hn hc hd
    have himp : (eplWlImportDmaBufSyncFile g so.import_ioctl).ret = false := by
      simp [eplWlImportDmaBufSyncFile, hg]
    simp only [SyncRendering, hn, hc, hd, himp, Bool.not_true, if_false, ite_false,
      Bool.false_eq_true, if_true, ite_true]
    split <;> simp
    split <;> simp

/-- Witness for C8 at concrete global states and outcomes. -/
theorem claimC8_import_sync_file_negative_cache_witness :
    eplWlImportDmaBufSyncFile ⟨false⟩ .ok = ⟨⟨false⟩, false, false⟩ ∧
    (eplWlImportDmaBufSyncFile ⟨true⟩ (.err ENOTTY)).g.import_sync_file_supported = false ∧
    (SyncRendering ⟨false, true, true, [5], false⟩ ⟨false⟩ false
      ⟨0, 0, 3, .IDLE, ⟨0⟩, 0⟩ ⟨true, true, ⟨true, true, true⟩, .ok⟩).didFinish = true :=
  ⟨((claimC8_import_sync_file_negative_cache ⟨false⟩ .ok (.ok 3) ENOTTY).1 rfl).1,
   ((claimC8_import_sync_file_negative_cache ⟨true⟩ .ok (.ok 3) ENOTTY).2.1
      (Or.inl rfl)).1,
   ((claimC8_import_sync_file_negative_cache ⟨false⟩ .ok (.ok 3) ENOTTY).2.2.2.2
      ⟨false, true, true, [5], false⟩ ⟨0, 0, 3, .IDLE, ⟨0⟩, 0⟩
      ⟨true, true, ⟨true, true, true⟩, .ok⟩ rfl rfl rfl rfl).1⟩

/-- C2 (code bug): `OnSurfaceFeedbackTrancheDone` is supposed to merge the
tranche's accumulated modifier support into the surface's support vector
exactly when the tranche's target device matches one of the render device's
known device ids (`specTrancheMerged`), and to discard it otherwise.  The
code compares with `!=`, so at these inputs a tranche whose target device IS
the render device (id 5) is discarded, while a tranche for a foreign device
(id 7) is merged — the opposite of the specified filter in both directions. -/
theorem claimC2_tranche_device_filter_inverted :
    (OnSurfaceFeedbackTrancheDone ⟨false, true, true, [5], false⟩
        ⟨false, 5, 0, [false], false, [true], false, false⟩).modifiers_supported
      = [false] ∧
    specTrancheMerged ⟨false, true, true, [5], false⟩
        ⟨false, 5, 0, [false], false, [true], false, false⟩ = true ∧
    (OnSurfaceFeedbackTrancheDone ⟨false, true, true, [5], false⟩
        ⟨false, 7, 0, [false], false, [true], false, false⟩).modifiers_supported
      = [true] ∧
    specTrancheMerged ⟨false, true, true, [5], false⟩
        ⟨false, 7, 0, [false], false, [true], false, false⟩ = false := by
  decide

theorem addUniqueFourcc_nodup {l : List Nat} (f : Nat) (h : l.Nodup) :
    (addUniqueFourcc l f).Nodup := by
  unfold addUniqueFourcc
  split
  · exact h
  · next hf =>
    simp only [List.nodup_append, List.nodup_singleton, true_and]
    exact ⟨h, by simpa [List.disjoint_singleton] using hf⟩

theorem addUniquePair_keys_nodup {l : List WlDmaBufFeedbackTableEntry}
    (e : WlDmaBufFeedbackTableEntry) (h : (pairKeys l).Nodup) :
    (pairKeys (addUniquePair l e)).Nodup := by
  unfold addUniquePair
  split
  · exact h
  · next hf =>
    simp only [List.any_eq_true, decide_eq_true_eq, not_exists, not_and] at hf
    have hgoal : pairKeys (l ++ [e]) = pairKeys l ++ [(e.fourcc, e.modifier)] := by
      simp [pairKeys]
    rw [hgoal]
    simp only [List.nodup_append, List.nodup_singleton, true_and,
      List.disjoint_singleton]
    refine ⟨h, ?_⟩
    simp only [pairKeys, List.mem_map, not_exists, not_and]
    intro a ha hk
    have h1 : a.fourcc = e.fourcc := congrArg Prod.fst hk
    have h2 : a.modifier = e.modifier := congrArg Prod.snd hk
    exact hf a ha h1 h2

theorem addUniquePair_exists (l : List WlDmaBufFeedbackTableEntry)
    (e : WlDmaBufFeedbackTableEntry) :
    ∃ m ∈ addUniquePair l e, m.fourcc = e.fourcc := by
  unfold addUniquePair
  split
  · next hf =>
    simp only [List.any_eq_true, decide_eq_true_eq] at hf
    obtain ⟨m, hm, hfc, _⟩ := hf
    exact ⟨m, hm, hfc⟩
  · exact ⟨e, by simp, rfl⟩

theorem addUniquePair_mono {l : List WlDmaBufFeedbackTableEntry}
    {m : WlDmaBufFeedbackTableEntry} (hm : m ∈ l) (e : WlDmaBufFeedbackTableEntry) :
    m ∈ addUniquePair l e := by
  unfold addUniquePair
  split
  · exact hm
  · exact List.mem_append_left _ hm

theorem collectEntry_inv (fmtKnown : Nat → Bool)
    (acc : List Nat × List WlDmaBufFeedbackTableEntry)
    (e : WlDmaBufFeedbackTableEntry) (h : collectInv acc) :
    collectInv (collectEntry fmtKnown acc e) := by
  unfold collectEntry
  split
  · exact h
  · refine ⟨addUniqueFourcc_nodup _ h.1, addUniquePair_keys_nodup _ h.2.1, ?_⟩
    intro x hx
    unfold addUniqueFourcc at hx
    by_cases hin : e.fourcc ∈ acc.1
    · simp only [hin, if_true] at hx
      obtain ⟨m, hm, hfc⟩ := h.2.2 x hx
      exact ⟨m, addUniquePair_mono hm e, hfc⟩
    · simp only [hin, if_false, List.mem_append, List.mem_singleton] at hx
      rcases hx with hx | rfl
      · obtain ⟨m, hm, hfc⟩ := h.2.2 x hx
        exact ⟨m, addUniquePair_mono hm e, hfc⟩
      · exact addUniquePair_exists acc.2 e

theorem foldl_collectEntry_inv (fmtKnown : Nat → Bool)
    (es : List WlDmaBufFeedbackTableEntry) :
    ∀ acc, collectInv acc → collectInv (es.foldl (collectEntry fmtKnown) acc) := by
  induction es with
  | nil => exact fun acc h => h
  | cons e es ih => exact fun acc h => ih _ (collectEntry_inv fmtKnown acc e h)

theorem collectTranches_inv (fmtKnown : Nat → Bool) (main_device : Nat)
    (ts : List DefaultFeedbackTranche) :
    collectInv (collectTranches fmtKnown main_device ts) := by
  unfold collectTranches
  have h : ∀ acc, collectInv acc → collectInv (ts.foldl (fun acc t =>
      if t.target_device ≠ main_device then acc
      else t.formats.foldl (collectEntry fmtKnown) acc) acc) := by
    induction ts with
    | nil => exact fun acc h => h
    | cons t ts ih =>
      intro acc hacc
      refine ih _ ?_
      dsimp only
      split
      · exact hacc
      · exact foldl_collectEntry_inv fmtKnown t.formats acc hacc
  exact h ([], []) ⟨List.nodup_nil, List.nodup_nil, by simp⟩

theorem nodup_modifiers_of_keys (f : Nat) :
    ∀ (l : List WlDmaBufFeedbackTableEntry), (∀ e ∈ l, e.fourcc = f) →
      (pairKeys l).Nodup → (l.map (fun m => m.modifier)).Nodup := by
  intro l
  induction l with
  | nil => simp
  | cons a t ih =>
    intro hall h
    simp only [pairKeys, List.map_cons, List.nodup_cons] at h
    simp only [List.map_cons, List.nodup_cons]
    refine ⟨?_, ih (fun e he => hall e (List.mem_cons_of_mem _ he)) h.2⟩
    intro hmem
    rcases List.mem_map.mp hmem with ⟨b, hb, hbm⟩
    apply h.1
    have hbf : b.fourcc = f := hall b (List.mem_cons_of_mem _ hb)
    have haf : a.fourcc = f := hall a (List.mem_cons_self _ _)
    refine List.mem_map.mpr ⟨b, hb, ?_⟩
    rw [hbf, haf, hbm]

/-- C7: every `WlFormatList` produced by finalizing a default feedback
session has its formats strictly ascending by fourcc code (hence without
duplicate format entries), and within each format's modifier list no
modifier appears twice. -/
theorem claimC7_format_list_sorted_unique (fmtKnown : Nat → Bool) (alloc_ok : Bool)
    (st : DefaultFeedbackState) (fl : WlFormatList)
    (h : FinishDefaultFeedback fmtKnown alloc_ok st = some fl) :
    (fl.formats.map (fun f => f.fourcc)).Sorted (· < ·) ∧
    ∀ f ∈ fl.formats, f.modifiers.Nodup := by
  unfold FinishDefaultFeedback at h
  split at h
  · exact absurd h (by simp)
  · split at h
    · exact absurd h (by simp)
    · simp only [] at h
      split at h
      · exact absurd h (by simp)
      · have hfl := Option.some.inj h
        have hinv := collectTranches_inv fmtKnown st.main_device st.tranches
        constructor
        · have hmap : fl.formats.map (fun f => f.fourcc)
              = (collectTranches fmtKnown st.main_device st.tranches).1.insertionSort (· ≤ ·) := by
            rw [← hfl]
            simp only [List.map_map]
            exact List.map_id _
          rw [hmap]
          exact (List.sorted_insertionSort _ _).lt_of_le
            (((List.perm_insertionSort _ _).nodup_iff).mpr hinv.1)
        · intro f hf
          rw [← hfl] at hf
          rcases List.mem_map.mp hf with ⟨x, hx, rfl⟩
          apply nodup_modifiers_of_keys x
          · intro e he
            exact of_decide_eq_true ((List.mem_filter.mp he).2)
          · exact ((List.filter_sublist _).map _).nodup hinv.2.1

/-- Witness for C7: a concrete finalized session, with the sortedness and
uniqueness facts obtained from the theorem. -/
theorem claimC7_format_list_sorted_unique_witness :
    ((({ formats := [⟨2, [7]⟩, ⟨10, [7, 8]⟩] } : WlFormatList)).formats.map
        (fun f => f.fourcc)).Sorted (· < ·) ∧
    ∀ f ∈ (({ formats := [⟨2, [7]⟩, ⟨10, [7, 8]⟩] } : WlFormatList)).formats,
      f.modifiers.Nodup :=
  claimC7_format_list_sorted_unique (fun f => f == 10 || f == 2) true
    ⟨false, [], 3, 0, 0, [], [⟨3, 0, [⟨10, 7⟩, ⟨10, 8⟩, ⟨2, 7⟩]⟩], true⟩
    ({ formats := [⟨2, [7]⟩, ⟨10, [7, 8]⟩] }) (by decide)

/-- C6 counterexample: the claim says a malformed (out-of-range) format-table
index during accumulation sets the session-wide error flag.  It does not: at
this concrete input (a one-entry format table, index 5) the handler records a
DRM_FORMAT_INVALID placeholder and leaves the error flag clear. -/
theorem claimC6_malformed_index_counterexample :
    ¬ (∀ (st : DefaultFeedbackState) (alloc_ok : Bool) (indices : List Nat),
        st.error = false → (∃ i ∈ indices, st.format_table.length ≤ i) →
        (OnDefaultFeedbackTrancheFormats st alloc_ok indices).error = true) := by
  intro h
  exact absurd
    (h ⟨false, [⟨1, 2⟩], 0, 0, 0, [], [], false⟩ true [5] rfl ⟨5, by decide, by decide⟩)
    (by decide)

/-- C6 (amended): an allocation failure during accumulation sets the
session-wide error flag, while an out-of-range format-table index is
recorded as a DRM_FORMAT_INVALID placeholder (to be filtered out at session
end) without setting the flag; a session that ends with the error flag set,
or whose device-filtered result has zero recognized formats or zero
modifiers, makes the default-feedback query return a null result, never an
empty FormatList. -/
theorem claimC6_accumulation_errors (st : DefaultFeedbackState) (indices : List Nat)
    (fmtKnown : Nat → Bool) (alloc_ok finish_alloc_ok : Bool)
    (events : List DefaultFeedbackEvent) (roundtrip_ok : Bool) :
    (st.error = false → indices ≠ [] → st.format_table ≠ [] →
      (OnDefaultFeedbackTrancheFormats st false indices).error = true) ∧
    ((OnDefaultFeedbackTrancheFormats st alloc_ok indices).error = true →
      st.error = true ∨ alloc_ok = false) ∧
    (st.format_table ≠ [] → (∀ i ∈ indices, st.format_table.length ≤ i) →
      (OnDefaultFeedbackTrancheFormats st alloc_ok indices).tranche_formats
          = st.tranche_formats
        ∨ (OnDefaultFeedbackTrancheFormats st alloc_ok indices).tranche_formats
          = st.tranche_formats
            ++ indices.map (fun _ => ⟨DRM_FORMAT_INVALID, DRM_FORMAT_MOD_INVALID⟩)) ∧
    (st.error = true → FinishDefaultFeedback fmtKnown finish_alloc_ok st = none) ∧
    (∀ fl, FinishDefaultFeedback fmtKnown finish_alloc_ok st = some fl →
      fl.formats ≠ []) ∧
    ((events.foldl handleDefaultFeedbackEvent initialDefaultFeedbackState).error = true →
      eplWlDmaBufFeedbackGetDefault fmtKnown events roundtrip_ok finish_alloc_ok = none) := by
  refine ⟨?_, ?_, ?_, ?_, ?_, ?_⟩
  · intro he hi ht
    unfold OnDefaultFeedbackTrancheFormats
    simp [he, hi, ht, List.length_eq_zero]
  · intro h
    by_cases he : st.error = true
    · exact Or.inl he
    · by_cases ha : alloc_ok = true
      · exfalso
        unfold OnDefaultFeedbackTrancheFormats at h
        simp only [he, if_false, Bool.false_eq_true, ite_false] at h
        split at h
        · exact absurd h (by simp [he])
        · simp [ha, he] at h
      · exact Or.inr (by simpa using ha)
  · intro ht hall
    unfold OnDefaultFeedbackTrancheFormats
    split
    · exact Or.inl rfl
    · split
      · exact Or.inl rfl
      · split
        · exact Or.inl rfl
        · refine Or.inr ?_
          simp only [DefaultFeedbackState.mk.injEq]
          congr 1
          apply List.map_congr_left
          intro i hi
          have := hall i hi
          simp [Nat.not_lt.mpr this]
  · intro he
    unfold FinishDefaultFeedback
    simp [he]
  · intro fl h
    unfold FinishDefaultFeedback at h
    split at h
    · exact absurd h (by simp)
    · split at h
      · exact absurd h (by simp)
      · simp only [] at h
        split at h
        · exact absurd h (by simp)
        · next hlen =>
          have hfl := Option.some.inj h
          rw [← hfl]
          simp only [ne_eq, List.map_eq_nil_iff]
          intro hnil
          apply hlen
          left
          have := List.Perm.length_eq (List.perm_insertionSort (· ≤ ·)
            (collectTranches fmtKnown st.main_device st.tranches).1)
          rw [← this, hnil]
          rfl
  · intro he
    unfold eplWlDmaBufFeedbackGetDefault
    by_cases hr : roundtrip_ok = true
    · simp only [hr, if_true]
      unfold FinishDefaultFeedback
      simp [he]
    · simp only [Bool.not_eq_true] at hr
      simp only [hr]
      unfold FinishDefaultFeedback
      simp

theorem releaseUpdate_length (w : Nat) :
    ∀ l : List WlPresentBuffer, (releaseUpdate l w).length = l.length := by
  intro l
  induction l with
  | nil => rfl
  | cons b rest ih =>
    unfold releaseUpdate
    split
    · simp
    · simpa using ih

theorem releaseUpdate_exists_idle (w : Nat) :
    ∀ l : List WlPresentBuffer, (∃ b ∈ l, b.status = WlBufferStatus.IDLE) →
      ∃ b ∈ releaseUpdate l w, b.status = WlBufferStatus.IDLE := by
  intro l
  induction l with
  | nil => simp
  | cons b rest ih =>
    intro h
    rcases h with ⟨x, hx, hxi⟩
    unfold releaseUpdate
    split
    · next hid =>
      rcases List.mem_cons.mp hx with rfl | hx'
      · refine ⟨x, List.mem_append_right _ ?_, hxi⟩
        simp [hxi]
      · exact ⟨x, List.mem_append_left _ hx', hxi⟩
    · rcases List.mem_cons.mp hx with rfl | hx'
      · exact ⟨x, List.mem_cons_self _ _, hxi⟩
      · obtain ⟨y, hy, hyi⟩ := ih ⟨x, hx', hxi⟩
        exact ⟨y, List.mem_cons_of_mem _ hy, hyi⟩

theorem foldl_releaseUpdate_length (events : List Nat) :
    ∀ l : List WlPresentBuffer, (events.foldl releaseUpdate l).length = l.length := by
  induction events with
  | nil => intro l; rfl
  | cons e es ih => intro l; rw [List.foldl_cons, ih, releaseUpdate_length]

theorem foldl_releaseUpdate_exists_idle (events : List Nat) :
    ∀ l : List WlPresentBuffer, (∃ b ∈ l, b.status = WlBufferStatus.IDLE) →
      ∃ b ∈ events.foldl releaseUpdate l, b.status = WlBufferStatus.IDLE := by
  induction events with
  | nil => intro l h; exact h
  | cons e es ih => intro l h; exact ih _ (releaseUpdate_exists_idle e l h)

theorem setStatus_length (sc : WlSwapChain) (bid : Nat) (s : WlBufferStatus) :
    (setStatus sc bid s).present_buffers.length = sc.present_buffers.length := by
  simp [setStatus]

theorem setStatus_idle_exists_idle (sc : WlSwapChain) (bid : Nat) (h : hasIdle sc) :
    hasIdle (setStatus sc bid WlBufferStatus.IDLE) := by
  rcases h with ⟨x, hx, hxi⟩
  by_cases hb : x.id = bid
  · exact ⟨{ x with status := WlBufferStatus.IDLE },
      List.mem_map.mpr ⟨x, hx, by simp [hb]⟩, rfl⟩
  · exact ⟨x, List.mem_map.mpr ⟨x, hx, by simp [hb]⟩, hxi⟩

theorem checkExplicit_cases (sc : WlSwapChain) (o : ExplicitCheckOracle) :
    (CheckBufferReleaseExplicit sc o).1 = sc ∨
    ∃ bid, (CheckBufferReleaseExplicit sc o).1 = setStatus sc bid WlBufferStatus.IDLE := by
  unfold CheckBufferReleaseExplicit
  simp only []
  split
  · exact Or.inl rfl
  · split
    · split
      · split
        · exact Or.inr ⟨_, rfl⟩
        · exact Or.inl rfl
      · exact Or.inl rfl
    · exact Or.inl rfl
    · exact Or.inl rfl

theorem checkExplicit_length (sc : WlSwapChain) (o : ExplicitCheckOracle) :
    (CheckBufferReleaseExplicit sc o).1.present_buffers.length
      = sc.present_buffers.length := by
  rcases checkExplicit_cases sc o with h | ⟨bid, h⟩
  · rw [h]
  · rw [h]; exact setStatus_length _ _ _

theorem checkExplicit_exists_idle (sc : WlSwapChain) (o : ExplicitCheckOracle)
    (h : hasIdle sc) : hasIdle (CheckBufferReleaseExplicit sc o).1 := by
  rcases checkExplicit_cases sc o with hc | ⟨bid, hc⟩
  · rw [hc]; exact h
  · rw [hc]; exact setStatus_idle_exists_idle _ _ h

theorem implicitFirstPass_length (inst : WlDisplayInstance) (o : ImplicitCheckOracle) :
    ∀ l : List WlPresentBuffer, (implicitFirstPass inst o l).1.length = l.length := by
  intro l
  induction l with
  | nil => rfl
  | cons b rest ih =>
    unfold implicitFirstPass
    split
    · split
      · split
        · simp
        · simpa using ih
      · simp
    · simpa using ih

theorem implicitFirstPass_exists_idle (inst : WlDisplayInstance) (o : ImplicitCheckOracle) :
    ∀ l : List WlPresentBuffer, (∃ b ∈ l, b.status = WlBufferStatus.IDLE) →
      ∃ b ∈ (implicitFirstPass inst o l).1, b.status = WlBufferStatus.IDLE := by
  intro l
  induction l with
  | nil => simp
  | cons b rest ih =>
    intro h
    rcases h with ⟨x, hx, hxi⟩
    unfold implicitFirstPass
    split
    · split
      · split
        · exact ⟨_, List.mem_cons_self _ _, rfl⟩
        · rcases List.mem_cons.mp hx with rfl | hx'
          · exact ⟨x, List.mem_cons_self _ _, hxi⟩
          · obtain ⟨y, hy, hyi⟩ := ih ⟨x, hx', hxi⟩
            exact ⟨y, List.mem_cons_of_mem _ hy, hyi⟩
      · exact ⟨_, List.mem_cons_self _ _, rfl⟩
    · rcases List.mem_cons.mp hx with rfl | hx'
      · exact ⟨x, List.mem_cons_self _ _, hxi⟩
      · obtain ⟨y, hy, hyi⟩ := ih ⟨x, hx', hxi⟩
        exact ⟨y, List.mem_cons_of_mem _ hy, hyi⟩

theorem checkImplicit_length (inst : WlDisplayInstance) (sc : WlSwapChain)
    (o : ImplicitCheckOracle) :
    (CheckBufferReleaseImplicit inst sc o).1.present_buffers.length
      = sc.present_buffers.length := by
  unfold CheckBufferReleaseImplicit
  split
  · rfl
  · simp only []
    split
    · simp [implicitFirstPass_length, foldl_releaseUpdate_length]
    · split
      · simp [implicitFirstPass_length, foldl_releaseUpdate_length]
      · split
        · simp [implicitFirstPass_length, foldl_releaseUpdate_length]
        · simp [implicitFirstPass_length, foldl_releaseUpdate_length]
        · simp [implicitFirstPass_length, foldl_releaseUpdate_length]

theorem checkImplicit_exists_idle (inst : WlDisplayInstance) (sc : WlSwapChain)
    (o : ImplicitCheckOracle) (h : hasIdle sc) :
    hasIdle (CheckBufferReleaseImplicit inst sc o).1 := by
  rcases h with ⟨x, hx, hxi⟩
  have h1 := foldl_releaseUpdate_exists_idle o.dispatch_events sc.present_buffers
    ⟨x, hx, hxi⟩
  have h2 := implicitFirstPass_exists_idle inst o
    (o.dispatch_events.foldl releaseUpdate sc.present_buffers) h1
  unfold CheckBufferReleaseImplicit
  split
  · exact ⟨x, hx, hxi⟩
  · simp only []
    split
    · exact h2
    · split
      · exact h2
      · split
        · -- poll ready: the map only turns IDLE_NOTIFIED buffers IDLE
          obtain ⟨y, hy, hyi⟩ := h2
          refine ⟨y, List.mem_map.mpr ⟨y, hy, ?_⟩, hyi⟩
          simp [hyi]
        · exact h2
        · exact h2

theorem appendPresentBuffer_some (inst : WlDisplayInstance) (sc : WlSwapChain)
    (dmabuf : Int) (o : AppendOracle) (sc' : WlSwapChain) (buf : WlPresentBuffer)
    (h : SwapChainAppendPresentBuffer inst sc dmabuf o = some (sc', buf)) :
    sc'.present_buffers.length = sc.present_buffers.length + 1 ∧
    buf.status = WlBufferStatus.IDLE ∧
    sc'.present_buffers = buf :: sc.present_buffers := by
  unfold SwapChainAppendPresentBuffer at h
  split at h
  · exact absurd h (by simp)
  · split at h
    · exact absurd h (by simp)
    · split at h
      · exact absurd h (by simp)
      · have hp := Option.some.inj h
        have h1 := congrArg Prod.fst hp
        have h2 := congrArg Prod.snd hp
        simp only [] at h1 h2
        refine ⟨?_, ?_, ?_⟩
        · rw [← h1]; simp
        · rw [← h2]
        · rw [← h1, ← h2]

theorem createPresentBuffer_some (inst : WlDisplayInstance) (sc : WlSwapChain)
    (o : CreateBufOracle) (sc' : WlSwapChain) (buf : WlPresentBuffer)
    (h : eplWlSwapChainCreatePresentBuffer inst sc o = some (sc', buf)) :
    sc'.present_buffers.length = sc.present_buffers.length + 1 := by
  unfold eplWlSwapChainCreatePresentBuffer at h
  split at h
  · exact absurd h (by simp)
  · split at h
    · exact absurd h (by simp)
    · rcases hA : SwapChainAppendPresentBuffer inst sc (o.dmabuf_fd : Int) o.append
        with _ | ⟨sc2, buf2⟩
      · rw [hA] at h
        exact absurd h (by simp)
      · rw [hA] at h
        simp only [] at h
        have hp := Option.some.inj h
        have h1 := congrArg Prod.fst hp
        simp only [] at h1
        have hlen := (appendPresentBuffer_some inst sc _ _ _ _ hA).1
        rw [← h1]
        simpa using hlen

theorem findFreeScan_found_of_idle (inst : WlDisplayInstance) (sc : WlSwapChain)
    (createO : CreateBufOracle) (h : hasIdle sc) :
    ∃ bid, findFreeScan inst sc createO = some (sc, .found bid) := by
  unfold findFreeScan
  rcases hf : sc.present_buffers.find? (fun b => b.status = WlBufferStatus.IDLE)
    with _ | b
  · exfalso
    rcases h with ⟨x, hx, hxi⟩
    have := List.find?_eq_none.mp hf x hx
    simp [hxi] at this
  · exact ⟨b.id, by simp only [hf]⟩

theorem findFreeScan_none (inst : WlDisplayInstance) (sc : WlSwapChain)
    (createO : CreateBufOracle) (h : findFreeScan inst sc createO = none) :
    ¬hasIdle sc ∧ MAX_PRESENT_BUFFERS ≤ sc.present_buffers.length := by
  unfold findFreeScan at h
  rcases hf : sc.present_buffers.find? (fun b => b.status = WlBufferStatus.IDLE)
    with _ | b
  · simp only [hf] at h
    constructor
    · rintro ⟨x, hx, hxi⟩
      have := List.find?_eq_none.mp hf x hx
      simp [hxi] at this
    · by_contra hlt
      simp only [Nat.not_le] at hlt
      rw [if_pos hlt] at h
      rcases hC : eplWlSwapChainCreatePresentBuffer inst sc createO with _ | ⟨sc2, buf⟩ <;>
        simp only [hC] at h <;> exact absurd h (by simp)
  · simp only [hf] at h
    exact absurd h (by simp)

theorem findFreeScan_some_length (inst : WlDisplayInstance) (sc : WlSwapChain)
    (createO : CreateBufOracle) (sc' : WlSwapChain) (r : FindResult)
    (h : findFreeScan inst sc createO = some (sc', r)) :
    sc'.present_buffers.length = sc.present_buffers.length ∨
    (sc'.present_buffers.length = sc.present_buffers.length + 1 ∧
      sc.present_buffers.length < MAX_PRESENT_BUFFERS ∧ ¬hasIdle sc) := by
  unfold findFreeScan at h
  rcases hf : sc.present_buffers.find? (fun b => b.status = WlBufferStatus.IDLE)
    with _ | b
  · simp only [hf] at h
    have hni : ¬hasIdle sc := by
      rintro ⟨x, hx, hxi⟩
      have := List.find?_eq_none.mp hf x hx
      simp [hxi] at this
    split at h
    · next hlt =>
      rcases hC : eplWlSwapChainCreatePresentBuffer inst sc createO with _ | ⟨sc2, buf⟩
      · simp only [hC] at h
        have := Option.some.inj h
        have h1 : sc = sc' := congrArg Prod.fst this
        rw [← h1]
        exact Or.inl rfl
      · simp only [hC] at h
        have := Option.some.inj h
        have h1 : sc2 = sc' := congrArg Prod.fst this
        rw [← h1]
        exact Or.inr ⟨createPresentBuffer_some inst sc createO sc2 buf hC, hlt, hni⟩
    · exact absurd h (by simp)
  · simp only [hf] at h
    have := Option.some.inj h
    have h1 : sc = sc' := congrArg Prod.fst this
    rw [← h1]
    exact Or.inl rfl

theorem findFreeLoop_found_of_idle (inst : WlDisplayInstance) (createO : CreateBufOracle)
    (iters : List FindIterOracle) (sc : WlSwapChain) (h : hasIdle sc) :
    ∃ bid, findFreeLoop inst createO iters sc = (sc, .found bid) := by
  obtain ⟨bid, hs⟩ := findFreeScan_found_of_idle inst sc createO h
  rcases iters with _ | ⟨it, rest⟩
  · exact ⟨bid, by unfold findFreeLoop; rw [hs]⟩
  · exact ⟨bid, by unfold findFreeLoop; rw [hs]⟩

theorem findFreeLoop_length (inst : WlDisplayInstance) (createO : CreateBufOracle) :
    ∀ (iters : List FindIterOracle) (sc : WlSwapChain),
      (findFreeLoop inst createO iters sc).1.present_buffers.length
          = sc.present_buffers.length ∨
      ((findFreeLoop inst createO iters sc).1.present_buffers.length
          = sc.present_buffers.length + 1 ∧
        sc.present_buffers.length < MAX_PRESENT_BUFFERS ∧ ¬hasIdle sc) := by
  intro iters
  induction iters with
  | nil =>
    intro sc
    unfold findFreeLoop
    rcases hs : findFreeScan inst sc createO with _ | ⟨sc', r⟩
    · exact Or.inl rfl
    · exact findFreeScan_some_length inst sc createO sc' r hs
  | cons it rest ih =>
    intro sc
    unfold findFreeLoop
    rcases hs : findFreeScan inst sc createO with _ | ⟨sc', r⟩
    · have hfull := (findFreeScan_none inst sc createO hs).2
      simp only []
      split
      · -- explicit sync
        split
        · exact Or.inl (checkExplicit_length sc it.explicitCheck)
        · rcases ih (CheckBufferReleaseExplicit sc it.explicitCheck).1 with h1 | ⟨h1, h2, _⟩
          · exact Or.inl (h1.trans (checkExplicit_length sc it.explicitCheck))
          · exfalso
            rw [checkExplicit_length sc it.explicitCheck] at h2
            exact Nat.not_le.mpr h2 hfull
      · -- implicit sync
        split
        · exact Or.inl (checkImplicit_length inst sc it.implicitCheck)
        · split
          · split
            · exact Or.inl (checkImplicit_length inst sc it.implicitCheck)
            · rcases ih { (CheckBufferReleaseImplicit inst sc it.implicitCheck).1 with
                  present_buffers := it.dispatch_events.foldl releaseUpdate
                    (CheckBufferReleaseImplicit inst sc it.implicitCheck).1.present_buffers }
                with h1 | ⟨h1, h2, _⟩
              · refine Or.inl (h1.trans ?_)
                simp only []
                rw [foldl_releaseUpdate_length, checkImplicit_length]
              · exfalso
                simp only [] at h2
                rw [foldl_releaseUpdate_length, checkImplicit_length] at h2
                exact Nat.not_le.mpr h2 hfull
          · rcases ih (CheckBufferReleaseImplicit inst sc it.implicitCheck).1
              with h1 | ⟨h1, h2, _⟩
            · exact Or.inl (h1.trans (checkImplicit_length inst sc it.implicitCheck))
            · exfalso
              rw [checkImplicit_length inst sc it.implicitCheck] at h2
              exact Nat.not_le.mpr h2 hfull
    · have := findFreeScan_some_length inst sc createO sc' r hs
      simp only []
      exact this

/-- C3: `eplWlSwapChainFindFreePresentBuffer` (1) never changes the pool size
once it holds `MAX_PRESENT_BUFFERS` (4) buffers — at the cap it blocks or
polls, never allocating a fifth; (2) whenever some buffer is IDLE (and the
initial availability check does not error out), a buffer is returned and the
pool size is unchanged — so repeated calls allocate nothing; (3) in general
the pool grows by at most one buffer, and only when nothing was IDLE and the
pool was below the cap. -/
theorem claimC3_find_free_buffer_pool (inst : WlDisplayInstance) (sc : WlSwapChain)
    (o : FindOracle) :
    (MAX_PRESENT_BUFFERS ≤ sc.present_buffers.length →
      (eplWlSwapChainFindFreePresentBuffer inst sc o).1.present_buffers.length
        = sc.present_buffers.length) ∧
    (hasIdle sc →
      (if inst.syncobj then (CheckBufferReleaseExplicit sc o.initialExplicit).2
       else (CheckBufferReleaseImplicit inst sc o.initialImplicit).2) ≥ 0 →
      (∃ bid, (eplWlSwapChainFindFreePresentBuffer inst sc o).2 = .found bid) ∧
      (eplWlSwapChainFindFreePresentBuffer inst sc o).1.present_buffers.length
        = sc.present_buffers.length) ∧
    ((eplWlSwapChainFindFreePresentBuffer inst sc o).1.present_buffers.length
        = sc.present_buffers.length ∨
      ((eplWlSwapChainFindFreePresentBuffer inst sc o).1.present_buffers.length
          = sc.present_buffers.length + 1 ∧
        sc.present_buffers.length < MAX_PRESENT_BUFFERS ∧ ¬hasIdle sc)) := by
  have hgen :
      (eplWlSwapChainFindFreePresentBuffer inst sc o).1.present_buffers.length
          = sc.present_buffers.length ∨
      ((eplWlSwapChainFindFreePresentBuffer inst sc o).1.present_buffers.length
          = sc.present_buffers.length + 1 ∧
        sc.present_buffers.length < MAX_PRESENT_BUFFERS ∧ ¬hasIdle sc) := by
    unfold eplWlSwapChainFindFreePresentBuffer
    split
    · simp only []
      split
      · exact Or.inl (checkExplicit_length sc o.initialExplicit)
      · rcases findFreeLoop_length inst o.createBuf o.iters
            (CheckBufferReleaseExplicit sc o.initialExplicit).1 with h1 | ⟨h1, h2, h3⟩
        · exact Or.inl (h1.trans (checkExplicit_length sc o.initialExplicit))
        · refine Or.inr ⟨?_, ?_, ?_⟩
          · rw [h1, checkExplicit_length sc o.initialExplicit]
          · rw [checkExplicit_length sc o.initialExplicit] at h2
            exact h2
          · intro hi
            exact h3 (checkExplicit_exists_idle sc o.initialExplicit hi)
    · simp only []
      split
      · exact Or.inl (checkImplicit_length inst sc o.initialImplicit)
      · rcases findFreeLoop_length inst o.createBuf o.iters
            (CheckBufferReleaseImplicit inst sc o.initialImplicit).1 with h1 | ⟨h1, h2, h3⟩
        · exact Or.inl (h1.trans (checkImplicit_length inst sc o.initialImplicit))
        · refine Or.inr ⟨?_, ?_, ?_⟩
          · rw [h1, checkImplicit_length inst sc o.initialImplicit]
          · rw [checkImplicit_length inst sc o.initialImplicit] at h2
            exact h2
          · intro hi
            exact h3 (checkImplicit_exists_idle inst sc o.initialImplicit hi)
  refine ⟨?_, ?_, hgen⟩
  · intro hcap
    rcases hgen with h1 | ⟨_, h2, _⟩
    · exact h1
    · exact absurd h2 (Nat.not_lt.mpr hcap)
  · intro hidle hok
    unfold eplWlSwapChainFindFreePresentBuffer
    by_cases hsy : inst.syncobj = true
    · rw [hsy] at hok
      simp only [hsy, if_true]
      have hok' : ¬((CheckBufferReleaseExplicit sc o.initialExplicit).2 < 0) :=
        Int.not_lt.mpr hok
      simp only [hok', if_true, if_false, ite_false, ite_true]
      obtain ⟨bid, hb⟩ := findFreeLoop_found_of_idle inst o.createBuf o.iters
        (CheckBufferReleaseExplicit sc o.initialExplicit).1
        (checkExplicit_exists_idle sc o.initialExplicit hidle)
      rw [hb]
      exact ⟨⟨bid, rfl⟩, checkExplicit_length sc o.initialExplicit⟩
    · simp only [Bool.not_eq_true] at hsy
      rw [hsy] at hok
      simp only [hsy]
      simp only [Bool.false_eq_true, if_false, ite_false] at hok ⊢
      have hok' : ¬((CheckBufferReleaseImplicit inst sc o.initialImplicit).2 < 0) :=
        Int.not_lt.mpr hok
      simp only [hok', if_true, if_false, ite_false, ite_true]
      obtain ⟨bid, hb⟩ := findFreeLoop_found_of_idle inst o.createBuf o.iters
        (CheckBufferReleaseImplicit inst sc o.initialImplicit).1
        (checkImplicit_exists_idle inst sc o.initialImplicit hidle)
      rw [hb]
      exact ⟨⟨bid, rfl⟩, checkImplicit_length inst sc o.initialImplicit⟩

/-- Witness for C3: a full four-buffer pool keeps exactly four buffers, and a
pool with one IDLE buffer returns a buffer without allocating. -/
theorem claimC3_find_free_buffer_pool_witness :
    (eplWlSwapChainFindFreePresentBuffer ⟨false, false, false, [], false⟩
      ⟨64, 64, 1, 1, 0, false,
        [⟨1, 2, -1, .IN_USE, ⟨0⟩, 0⟩, ⟨2, 3, -1, .IN_USE, ⟨0⟩, 0⟩,
         ⟨3, 4, -1, .IN_USE, ⟨0⟩, 0⟩, ⟨4, 5, -1, .IN_USE, ⟨0⟩, 0⟩],
        some 1, 2⟩
      ⟨⟨.timedOut, false⟩, ⟨true, [], fun _ => false, .timedOut⟩,
        ⟨true, true, 9, 7, ⟨true, true, true, 5⟩⟩, []⟩).1.present_buffers.length = 4 ∧
    (∃ bid, (eplWlSwapChainFindFreePresentBuffer ⟨false, false, false, [], false⟩
      ⟨64, 64, 1, 1, 0, false, [⟨1, 2, -1, .IDLE, ⟨0⟩, 0⟩], some 1, 2⟩
      ⟨⟨.timedOut, false⟩, ⟨true, [], fun _ => false, .timedOut⟩,
        ⟨true, true, 9, 7, ⟨true, true, true, 5⟩⟩, []⟩).2 = .found bid) ∧
    (eplWlSwapChainFindFreePresentBuffer ⟨false, false, false, [], false⟩
      ⟨64, 64, 1, 1, 0, false, [⟨1, 2, -1, .IDLE, ⟨0⟩, 0⟩], some 1, 2⟩
      ⟨⟨.timedOut, false⟩, ⟨true, [], fun _ => false, .timedOut⟩,
        ⟨true, true, 9, 7, ⟨true, true, true, 5⟩⟩, []⟩).1.present_buffers.length = 1 :=
  ⟨((claimC3_find_free_buffer_pool ⟨false, false, false, [], false⟩
      ⟨64, 64, 1, 1, 0, false,
        [⟨1, 2, -1, .IN_USE, ⟨0⟩, 0⟩, ⟨2, 3, -1, .IN_USE, ⟨0⟩, 0⟩,
         ⟨3, 4, -1, .IN_USE, ⟨0⟩, 0⟩, ⟨4, 5, -1, .IN_USE, ⟨0⟩, 0⟩],
        some 1, 2⟩
      ⟨⟨.timedOut, false⟩, ⟨true, [], fun _ => false, .timedOut⟩,
        ⟨true, true, 9, 7, ⟨true, true, true, 5⟩⟩, []⟩).1 (by decide)).trans (by decide),
   ((claimC3_find_free_buffer_pool ⟨false, false, false, [], false⟩
      ⟨64, 64, 1, 1, 0, false, [⟨1, 2, -1, .IDLE, ⟨0⟩, 0⟩], some 1, 2⟩
      ⟨⟨.timedOut, false⟩, ⟨true, [], fun _ => false, .timedOut⟩,
        ⟨true, true, 9, 7, ⟨true, true, true, 5⟩⟩, []⟩).2.1 (by decide) (by decide)).1,
   (((claimC3_find_free_buffer_pool ⟨false, false, false, [], false⟩
      ⟨64, 64, 1, 1, 0, false, [⟨1, 2, -1, .IDLE, ⟨0⟩, 0⟩], some 1, 2⟩
      ⟨⟨.timedOut, false⟩, ⟨true, [], fun _ => false, .timedOut⟩,
        ⟨true, true, 9, 7, ⟨true, true, true, 5⟩⟩, []⟩).2.1 (by decide) (by decide)).2).trans
      (by decide)⟩

theorem releaseUpdate_origin (w : Nat) :
    ∀ (l : List WlPresentBuffer), ∀ b' ∈ releaseUpdate l w,
      ∃ b ∈ l, releaseStep b b' := by
  intro l
  induction l with
  | nil => simp [releaseUpdate]
  | cons b rest ih =>
    unfold releaseUpdate
    split
    · simp only []
      intro x hx
      rcases List.mem_append.mp hx with hx' | hx'
      · exact ⟨x, List.mem_cons_of_mem _ hx', Or.inl rfl⟩
      · have hxe := List.mem_singleton.mp hx'
        subst hxe
        by_cases hs : b.status = WlBufferStatus.IN_USE
        · exact ⟨b, List.mem_cons_self _ _, Or.inr ⟨hs, by simp [hs]⟩⟩
        · exact ⟨b, List.mem_cons_self _ _, Or.inl (by simp [hs])⟩
    · intro x hx
      rcases List.mem_cons.mp hx with rfl | hx'
      · exact ⟨x, List.mem_cons_self _ _, Or.inl rfl⟩
      · obtain ⟨y, hy, hstep⟩ := ih x hx'
        exact ⟨y, List.mem_cons_of_mem _ hy, hstep⟩

theorem releaseStep_trans {b b1 b' : WlPresentBuffer}
    (h1 : releaseStep b b1) (h2 : releaseStep b1 b') : releaseStep b b' := by
  rcases h1 with rfl | ⟨hs1, rfl⟩
  · exact h2
  · rcases h2 with rfl | ⟨hs2, rfl⟩
    · exact Or.inr ⟨hs1, rfl⟩
    · simp at hs2

theorem foldl_releaseUpdate_origin (events : List Nat) :
    ∀ (l : List WlPresentBuffer), ∀ b' ∈ events.foldl releaseUpdate l,
      ∃ b ∈ l, releaseStep b b' := by
  induction events with
  | nil => intro l b' h; exact ⟨b', h, Or.inl rfl⟩
  | cons e es ih =>
    intro l b' h
    obtain ⟨b1, hb1, hstep1⟩ := ih (releaseUpdate l e) b' h
    obtain ⟨b, hb, hstep0⟩ := releaseUpdate_origin e l b1 hb1
    exact ⟨b, hb, releaseStep_trans hstep0 hstep1⟩

theorem implicitFirstPass_origin (inst : WlDisplayInstance) (o : ImplicitCheckOracle) :
    ∀ (l : List WlPresentBuffer), ∀ b' ∈ (implicitFirstPass inst o l).1,
      ∃ b ∈ l, firstPassStep inst o b b' := by
  intro l
  induction l with
  | nil => simp [implicitFirstPass]
  | cons b rest ih =>
    unfold implicitFirstPass
    split
    · next hN =>
      split
      · next husable =>
        split
        · next hfence =>
          intro x hx
          rcases List.mem_cons.mp hx with rfl | hx'
          · exact ⟨b, List.mem_cons_self _ _, Or.inr ⟨hN, rfl, Or.inl hfence⟩⟩
          · exact ⟨x, List.mem_cons_of_mem _ hx', Or.inl rfl⟩
        · intro x hx
          rcases List.mem_cons.mp hx with rfl | hx'
          · exact ⟨x, List.mem_cons_self _ _, Or.inl rfl⟩
          · obtain ⟨y, hy, hstep⟩ := ih x hx'
            exact ⟨y, List.mem_cons_of_mem _ hy, hstep⟩
      · next husable =>
        intro x hx
        rcases List.mem_cons.mp hx with rfl | hx'
        · refine ⟨b, List.mem_cons_self _ _, Or.inr ⟨hN, rfl, ?_⟩⟩
          rcases Decidable.not_and_iff_or_not.mp husable with hd | hi
          · exact Or.inr (Or.inl (by omega))
          · exact Or.inr (Or.inr (by simpa using hi))
        · exact ⟨x, List.mem_cons_of_mem _ hx', Or.inl rfl⟩
    · intro x hx
      rcases List.mem_cons.mp hx with rfl | hx'
      · exact ⟨x, List.mem_cons_self _ _, Or.inl rfl⟩
      · obtain ⟨y, hy, hstep⟩ := ih x hx'
        exact ⟨y, List.mem_cons_of_mem _ hy, hstep⟩

theorem setStatus_origin (sc : WlSwapChain) (bid : Nat) (s : WlBufferStatus) :
    ∀ b' ∈ (setStatus sc bid s).present_buffers,
      ∃ b ∈ sc.present_buffers, b'.id = b.id ∧ (b' = b ∨ b' = { b with status := s }) := by
  intro b' h
  rcases List.mem_map.mp h with ⟨b, hb, rfl⟩
  by_cases hid : b.id = bid
  · exact ⟨b, hb, by simp [hid], Or.inr (by simp [hid])⟩
  · exact ⟨b, hb, by simp [hid], Or.inl (by simp [hid])⟩

theorem checkExplicit_origin (sc : WlSwapChain) (o : ExplicitCheckOracle) :
    ∀ b' ∈ (CheckBufferReleaseExplicit sc o).1.present_buffers,
      ∃ b ∈ sc.present_buffers, b'.id = b.id ∧
        (b' = b ∨ (b' = { b with status := WlBufferStatus.IDLE }
                   ∧ o.waitTimelinePoint_ok = true)) := by
  unfold CheckBufferReleaseExplicit
  simp only []
  split
  · intro b' h
    exact ⟨b', h, rfl, Or.inl rfl⟩
  · split
    · split
      · split
        · next hwt =>
          intro b' h
          obtain ⟨b, hb, hide, hor⟩ := setStatus_origin sc _ _ b' h
          refine ⟨b, hb, hide, ?_⟩
          rcases hor with rfl | hrec
          · exact Or.inl rfl
          · exact Or.inr ⟨hrec, hwt⟩
        · intro b' h
          exact ⟨b', h, rfl, Or.inl rfl⟩
      · intro b' h
        exact ⟨b', h, rfl, Or.inl rfl⟩
    · intro b' h
      exact ⟨b', h, rfl, Or.inl rfl⟩
    · intro b' h
      exact ⟨b', h, rfl, Or.inl rfl⟩

theorem firstPass_after_release_origin (inst : WlDisplayInstance)
    (o : ImplicitCheckOracle) (sc : WlSwapChain) :
    ∀ b' ∈ (implicitFirstPass inst o
        (o.dispatch_events.foldl releaseUpdate sc.present_buffers)).1,
      ∃ b ∈ sc.present_buffers, implicitStep inst o b b' := by
  intro b' h
  obtain ⟨b1, hb1, hfp⟩ := implicitFirstPass_origin inst o _ b' h
  obtain ⟨b, hb, hrel⟩ := foldl_releaseUpdate_origin o.dispatch_events _ b1 hb1
  refine ⟨b, hb, ?_⟩
  rcases hrel with rfl | ⟨hs, rfl⟩
  · rcases hfp with rfl | ⟨hN, rfl, hj⟩
    · exact Or.inl rfl
    · refine Or.inr (Or.inr ⟨Or.inr hN, rfl, ?_⟩)
      rcases hj with hj | hj | hj
      · exact Or.inl hj
      · exact Or.inr (Or.inr (Or.inl hj))
      · exact Or.inr (Or.inr (Or.inr hj))
  · rcases hfp with rfl | ⟨hN, heq, hj⟩
    · exact Or.inr (Or.inl ⟨hs, rfl⟩)
    · refine Or.inr (Or.inr ⟨Or.inl hs, ?_, ?_⟩)
      · rw [heq]
      · rcases hj with hj | hj | hj
        · exact Or.inl hj
        · exact Or.inr (Or.inr (Or.inl hj))
        · exact Or.inr (Or.inr (Or.inr hj))

theorem checkImplicit_origin (inst : WlDisplayInstance) (sc : WlSwapChain)
    (o : ImplicitCheckOracle) :
    ∀ b' ∈ (CheckBufferReleaseImplicit inst sc o).1.present_buffers,
      ∃ b ∈ sc.present_buffers, implicitStep inst o b b' := by
  unfold CheckBufferReleaseImplicit
  split
  · intro b' h
    exact ⟨b', h, Or.inl rfl⟩
  · simp only []
    split
    · exact firstPass_after_release_origin inst o sc
    · split
      · exact firstPass_after_release_origin inst o sc
      · split
        · next outIds heq =>
          intro b' h
          rcases List.mem_map.mp h with ⟨b2, hb2, rfl⟩
          obtain ⟨b, hb, hstep⟩ := firstPass_after_release_origin inst o sc b2 hb2
          refine ⟨b, hb, ?_⟩
          by_cases hc : b2.status = WlBufferStatus.IDLE_NOTIFIED ∧ b2.id ∈ outIds
          · rw [if_pos hc]
            have hpr : pollReady o b2.id := by
              unfold pollReady
              rw [heq]
              exact hc.2
            rcases hstep with rfl | ⟨hs, rfl⟩ | ⟨hsor, heq2, hj⟩
            · exact Or.inr (Or.inr ⟨Or.inr hc.1, rfl, Or.inr (Or.inl hpr)⟩)
            · exact Or.inr (Or.inr ⟨Or.inl hs, rfl, Or.inr (Or.inl hpr)⟩)
            · exfalso
              rw [heq2] at hc
              exact absurd hc.1 (by simp)
          · rw [if_neg hc]
            exact hstep
        · exact firstPass_after_release_origin inst o sc
        · exact firstPass_after_release_origin inst o sc

/-- C4 counterexample: the claim allows IDLE_NOTIFIED → IDLE "only after the
GPU wait for the release fence completes".  In the implicit check, when
implicit sync is unusable for a buffer (closed dma-buf fd or no implicit-sync
support) the code marks the oldest released buffer IDLE immediately, with no
wait at all ("just grab the oldest buffer and hope for the best",
wayland-swapchain.c:659-664): at this input the buffer goes
IDLE_NOTIFIED → IDLE although the fence-wait oracle reports no successful
wait for any buffer. -/
theorem claimC4_idle_notified_counterexample :
    ¬ (∀ (inst : WlDisplayInstance) (sc : WlSwapChain) (o : ImplicitCheckOracle),
        ∀ b' ∈ (CheckBufferReleaseImplicit inst sc o).1.present_buffers,
        ∀ b ∈ sc.present_buffers, b'.id = b.id →
          b.status = WlBufferStatus.IDLE_NOTIFIED →
          b'.status = WlBufferStatus.IDLE →
          o.waitImplicitFence_ok b.id = true) := by
  intro h
  have := h ⟨false, false, false, [], false⟩
    ⟨64, 64, 1, 1, 0, false, [⟨1, 2, -1, .IDLE_NOTIFIED, ⟨0⟩, 0⟩], some 1, 2⟩
    ⟨true, [], fun _ => false, .timedOut⟩
    ⟨1, 2, -1, .IDLE, ⟨0⟩, 0⟩ (by decide)
    ⟨1, 2, -1, .IDLE_NOTIFIED, ⟨0⟩, 0⟩ (by decide) rfl rfl rfl
  simp at this

/-- C4 (amended): each operation changes buffer statuses only along the
allowed transitions — a release notice: at most IN_USE → IDLE_NOTIFIED; the
explicit-sync check: a change only sets IDLE and only after a successful
timeline wait; the implicit-sync check: IN_USE → IDLE_NOTIFIED via a
dispatched release notice, and a transition to IDLE only from
IN_USE/IDLE_NOTIFIED, justified by a successful release-fence GPU wait, a
write-ready poll, or implicit sync being unusable for that buffer (in which
case the code transitions without waiting); and frame submission marks the
presented buffer IN_USE (shown on a concrete submission run). -/
theorem claimC4_status_transitions (inst : WlDisplayInstance) (sc : WlSwapChain)
    (w : Nat) (eo : ExplicitCheckOracle) (io : ImplicitCheckOracle) :
    (∀ b' ∈ (on_buffer_release sc w).present_buffers,
      ∃ b ∈ sc.present_buffers, releaseStep b b') ∧
    (∀ b' ∈ (CheckBufferReleaseExplicit sc eo).1.present_buffers,
      ∃ b ∈ sc.present_buffers, b'.id = b.id ∧
        (b' = b ∨ (b' = { b with status := WlBufferStatus.IDLE }
                   ∧ eo.waitTimelinePoint_ok = true))) ∧
    (∀ b' ∈ (CheckBufferReleaseImplicit inst sc io).1.present_buffers,
      ∃ b ∈ sc.present_buffers, implicitStep inst io b b') ∧
    ((eplWlSwapBuffers ⟨false, false, false, [], false⟩ ⟨true⟩
        ⟨true, 0, 0, 0, 0, 64, 64,
          ⟨64, 64, 1, 1, 0, false,
            [⟨1, 2, -1, .IDLE, ⟨0⟩, 0⟩, ⟨2, 3, -1, .IDLE, ⟨0⟩, 0⟩], some 1, 2⟩,
          false, false, false, false, 0, 16666666, false, false, false, false,
          1, 1, [], [], none⟩
        []
        ⟨[], ⟨true, true, true, 0, true, true, 0, 0, ⟨true, true, true, 0⟩⟩,
          ⟨⟨.timedOut, false⟩, ⟨true, [], fun _ => false, .timedOut⟩,
            ⟨true, true, 9, 7, ⟨true, true, true, 5⟩⟩, []⟩,
          true, ⟨true, true, ⟨true, true, true⟩, .ok⟩, [], true, 42, true, true, true,
          ⟨⟨.timedOut, false⟩, ⟨true, [], fun _ => false, .timedOut⟩,
            ⟨true, true, 9, 7, ⟨true, true, true, 5⟩⟩, []⟩,
          true, true⟩).s.swapchain.present_buffers.head?
      = some ⟨1, 2, -1, .IN_USE, ⟨0⟩, 1⟩) := by
  refine ⟨?_, checkExplicit_origin sc eo, checkImplicit_origin inst sc io, by decide⟩
  exact releaseUpdate_origin w sc.present_buffers

/-- Witness for C4's amended theorem: a release notice on an IN_USE buffer
yields IDLE_NOTIFIED, instantiated from the theorem. -/
theorem claimC4_status_transitions_witness :
    ∃ b ∈ ([⟨1, 2, -1, .IN_USE, ⟨0⟩, 0⟩] :
        List WlPresentBuffer), releaseStep b ⟨1, 2, -1, .IDLE_NOTIFIED, ⟨0⟩, 0⟩ :=
  (claimC4_status_transitions ⟨false, false, false, [], false⟩
    ⟨64, 64, 1, 1, 0, false, [⟨1, 2, -1, .IN_USE, ⟨0⟩, 0⟩], some 1, 2⟩ 1
    ⟨.timedOut, false⟩ ⟨true, [], fun _ => false, .timedOut⟩).1
    ⟨1, 2, -1, .IDLE_NOTIFIED, ⟨0⟩, 0⟩ (by decide)

/-- C1 (code bug): at this concrete input the frame is fully submitted (the
commit is in the request log and the presented buffer is marked IN_USE), the
post-commit assignment of a new back buffer fails
(`eglPlatformSetColorBuffersNVX` returns failure), the surface is flagged to
force a swapchain reallocation — and yet `eplWlSwapBuffers` returns failure
(EGL_FALSE) for the already-submitted frame, where the claim (and the spec's
failure-semantics, atomicity and user-visible-behavior passages) say the
call still reports success. -/
theorem claimC1_postcommit_failure_reported_fatal :
    ((eplWlSwapBuffers ⟨false, false, false, [], false⟩ ⟨true⟩
        ⟨true, 0, 0, 0, 0, 64, 64,
          ⟨64, 64, 1, 1, 0, false,
            [⟨1, 2, -1, .IDLE, ⟨0⟩, 0⟩, ⟨2, 3, -1, .IDLE, ⟨0⟩, 0⟩], some 1, 2⟩,
          false, false, false, false, 0, 16666666, false, false, false, false,
          1, 1, [], [], none⟩
        []
        ⟨[], ⟨true, true, true, 0, true, true, 0, 0, ⟨true, true, true, 0⟩⟩,
          ⟨⟨.timedOut, false⟩, ⟨true, [], fun _ => false, .timedOut⟩,
            ⟨true, true, 9, 7, ⟨true, true, true, 5⟩⟩, []⟩,
          true, ⟨true, true, ⟨true, true, true⟩, .ok⟩, [], true, 42, true, true, true,
          ⟨⟨.timedOut, false⟩, ⟨true, [], fun _ => false, .timedOut⟩,
            ⟨true, true, 9, 7, ⟨true, true, true, 5⟩⟩, []⟩,
          true, false⟩).success = false) ∧
    ((eplWlSwapBuffers ⟨false, false, false, [], false⟩ ⟨true⟩
        ⟨true, 0, 0, 0, 0, 64, 64,
          ⟨64, 64, 1, 1, 0, false,
            [⟨1, 2, -1, .IDLE, ⟨0⟩, 0⟩, ⟨2, 3, -1, .IDLE, ⟨0⟩, 0⟩], some 1, 2⟩,
          false, false, false, false, 0, 16666666, false, false, false, false,
          1, 1, [], [], none⟩
        []
        ⟨[], ⟨true, true, true, 0, true, true, 0, 0, ⟨true, true, true, 0⟩⟩,
          ⟨⟨.timedOut, false⟩, ⟨true, [], fun _ => false, .timedOut⟩,
            ⟨true, true, 9, 7, ⟨true, true, true, 5⟩⟩, []⟩,
          true, ⟨true, true, ⟨true, true, true⟩, .ok⟩, [], true, 42, true, true, true,
          ⟨⟨.timedOut, false⟩, ⟨true, [], fun _ => false, .timedOut⟩,
            ⟨true, true, 9, 7, ⟨true, true, true, 5⟩⟩, []⟩,
          true, false⟩).s.force_realloc = true) ∧
    WlRequest.commit ∈ (eplWlSwapBuffers ⟨false, false, false, [], false⟩ ⟨true⟩
        ⟨true, 0, 0, 0, 0, 64, 64,
          ⟨64, 64, 1, 1, 0, false,
            [⟨1, 2, -1, .IDLE, ⟨0⟩, 0⟩, ⟨2, 3, -1, .IDLE, ⟨0⟩, 0⟩], some 1, 2⟩,
          false, false, false, false, 0, 16666666, false, false, false, false,
          1, 1, [], [], none⟩
        []
        ⟨[], ⟨true, true, true, 0, true, true, 0, 0, ⟨true, true, true, 0⟩⟩,
          ⟨⟨.timedOut, false⟩, ⟨true, [], fun _ => false, .timedOut⟩,
            ⟨true, true, 9, 7, ⟨true, true, true, 5⟩⟩, []⟩,
          true, ⟨true, true, ⟨true, true, true⟩, .ok⟩, [], true, 42, true, true, true,
          ⟨⟨.timedOut, false⟩, ⟨true, [], fun _ => false, .timedOut⟩,
            ⟨true, true, 9, 7, ⟨true, true, true, 5⟩⟩, []⟩,
          true, false⟩).log ∧
    (eplWlSwapBuffers ⟨false, false, false, [], false⟩ ⟨true⟩
        ⟨true, 0, 0, 0, 0, 64, 64,
          ⟨64, 64, 1, 1, 0, false,
            [⟨1, 2, -1, .IDLE, ⟨0⟩, 0⟩, ⟨2, 3, -1, .IDLE, ⟨0⟩, 0⟩], some 1, 2⟩,
          false, false, false, false, 0, 16666666, false, false, false, false,
          1, 1, [], [], none⟩
        []
        ⟨[], ⟨true, true, true, 0, true, true, 0, 0, ⟨true, true, true, 0⟩⟩,
          ⟨⟨.timedOut, false⟩, ⟨true, [], fun _ => false, .timedOut⟩,
            ⟨true, true, 9, 7, ⟨true, true, true, 5⟩⟩, []⟩,
          true, ⟨true, true, ⟨true, true, true⟩, .ok⟩, [], true, 42, true, true, true,
          ⟨⟨.timedOut, false⟩, ⟨true, [], fun _ => false, .timedOut⟩,
            ⟨true, true, 9, 7, ⟨true, true, true, 5⟩⟩, []⟩,
          true, false⟩).s.swapchain.present_buffers.head?
      = some ⟨1, 2, -1, .IN_USE, ⟨0⟩, 0⟩ := by
  refine ⟨by decide, by decide, by decide, by decide⟩

/-- C10: calling `eplWlSwapBuffers` after the native `wl_egl_window` has been
destroyed (the mutex-guarded `native_window` pointer is NULL) fails
immediately with EGL_BAD_NATIVE_WINDOW and performs nothing: the state
(buffer statuses, swapchain, pacing objects) is untouched and no protocol
request is issued (empty request log). -/
theorem claimC10_destroyed_native_window (inst : WlDisplayInstance) (g : GlobalState)
    (s : SurfaceState) (rects : List (Int × Int × Int × Int)) (o : SwapOracle)
    (h : s.native_window = false) :
    eplWlSwapBuffers inst g s rects o
      = { success := false, err := some .badNativeWindow, blocked := false,
          g := g, s := s, log := [] } := by
  unfold eplWlSwapBuffers
  simp [h]

/-- Witness for C10 at a concrete destroyed-window state. -/
theorem claimC10_destroyed_native_window_witness :
    eplWlSwapBuffers ⟨false, false, false, [], false⟩ ⟨true⟩
        ⟨false, 0, 0, 1, 0, 64, 64,
          ⟨64, 64, 1, 1, 0, false, [⟨1, 2, -1, .IDLE, ⟨0⟩, 0⟩], some 1, 2⟩,
          false, false, false, false, 0, 16666666, false, false, false, false,
          1, 1, [], [], none⟩
        []
        ⟨[], ⟨true, true, true, 0, true, true, 0, 0, ⟨true, true, true, 0⟩⟩,
          ⟨⟨.timedOut, false⟩, ⟨true, [], fun _ => false, .timedOut⟩,
            ⟨true, true, 9, 7, ⟨true, true, true, 5⟩⟩, []⟩,
          true, ⟨true, true, ⟨true, true, true⟩, .ok⟩, [], true, 42, true, true, true,
          ⟨⟨.timedOut, false⟩, ⟨true, [], fun _ => false, .timedOut⟩,
            ⟨true, true, 9, 7, ⟨true, true, true, 5⟩⟩, []⟩,
          true, true⟩
      = { success := false, err := some .badNativeWindow, blocked := false,
          g := ⟨true⟩,
          s := ⟨false, 0, 0, 1, 0, 64, 64,
            ⟨64, 64, 1, 1, 0, false, [⟨1, 2, -1, .IDLE, ⟨0⟩, 0⟩], some 1, 2⟩,
            false, false, false, false, 0, 16666666, false, false, false, false,
            1, 1, [], [], none⟩,
          log := [] } :=
  claimC10_destroyed_native_window _ _ _ _ _ rfl

theorem setStatus_prime (sc : WlSwapChain) (bid : Nat) (st : WlBufferStatus) :
    (setStatus sc bid st).prime = sc.prime := rfl

theorem setBuf_prime (sc : WlSwapChain) (b : WlPresentBuffer) :
    (setBuf sc b).prime = sc.prime := rfl

theorem checkExplicit_prime (sc : WlSwapChain) (o : ExplicitCheckOracle) :
    (CheckBufferReleaseExplicit sc o).1.prime = sc.prime := by
  rcases checkExplicit_cases sc o with h | ⟨bid, h⟩
  · rw [h]
  · rw [h]; rfl

theorem checkImplicit_prime (inst : WlDisplayInstance) (sc : WlSwapChain)
    (o : ImplicitCheckOracle) :
    (CheckBufferReleaseImplicit inst sc o).1.prime = sc.prime := by
  unfold CheckBufferReleaseImplicit
  split
  · rfl
  · simp only []
    split
    · simp
    · split
      · simp
      · split <;> simp

theorem appendPresentBuffer_prime (inst : WlDisplayInstance) (sc : WlSwapChain)
    (dmabuf : Int) (o : AppendOracle) (sc' : WlSwapChain) (buf : WlPresentBuffer)
    (h : SwapChainAppendPresentBuffer inst sc dmabuf o = some (sc', buf)) :
    sc'.prime = sc.prime := by
  unfold SwapChainAppendPresentBuffer at h
  split at h
  · exact absurd h (by simp)
  · split at h
    · exact absurd h (by simp)
    · split at h
      · exact absurd h (by simp)
      · have h1 := congrArg Prod.fst (Option.some.inj h)
        simp only [] at h1
        rw [← h1]

theorem createPresentBuffer_prime (inst : WlDisplayInstance) (sc : WlSwapChain)
    (o : CreateBufOracle) (sc' : WlSwapChain) (buf : WlPresentBuffer)
    (h : eplWlSwapChainCreatePresentBuffer inst sc o = some (sc', buf)) :
    sc'.prime = sc.prime := by
  unfold eplWlSwapChainCreatePresentBuffer at h
  split at h
  · exact absurd h (by simp)
  · split at h
    · exact absurd h (by simp)
    · rcases hA : SwapChainAppendPresentBuffer inst sc (o.dmabuf_fd : Int) o.append
        with _ | ⟨sc2, buf2⟩
      · rw [hA] at h
        exact absurd h (by simp)
      · rw [hA] at h
        simp only [] at h
        have h1 := congrArg Prod.fst (Option.some.inj h)
        simp only [] at h1
        rw [← h1]
        show sc2.prime = sc.prime
        exact appendPresentBuffer_prime inst sc _ _ _ _ hA

theorem findFreeScan_some_prime (inst : WlDisplayInstance) (sc : WlSwapChain)
    (createO : CreateBufOracle) (sc' : WlSwapChain) (r : FindResult)
    (h : findFreeScan inst sc createO = some (sc', r)) : sc'.prime = sc.prime := by
  unfold findFreeScan at h
  rcases hf : sc.present_buffers.find? (fun b => b.status = WlBufferStatus.IDLE)
    with _ | b
  · simp only [hf] at h
    split at h
    · rcases hC : eplWlSwapChainCreatePresentBuffer inst sc createO with _ | ⟨sc2, buf⟩
      · simp only [hC] at h
        have h1 : sc = sc' := congrArg Prod.fst (Option.some.inj h)
        rw [← h1]
      · simp only [hC] at h
        have h1 : sc2 = sc' := congrArg Prod.fst (Option.some.inj h)
        rw [← h1]
        exact createPresentBuffer_prime inst sc createO sc2 buf hC
    · exact absurd h (by simp)
  · simp only [hf] at h
    have h1 : sc = sc' := congrArg Prod.fst (Option.some.inj h)
    rw [← h1]

theorem findFreeLoop_prime (inst : WlDisplayInstance) (createO : CreateBufOracle) :
    ∀ (iters : List FindIterOracle) (sc : WlSwapChain),
      (findFreeLoop inst createO iters sc).1.prime = sc.prime := by
  intro iters
  induction iters with
  | nil =>
    intro sc
    unfold findFreeLoop
    rcases hs : findFreeScan inst sc createO with _ | ⟨sc', r⟩
    · rfl
    · exact findFreeScan_some_prime inst sc createO sc' r hs
  | cons it rest ih =>
    intro sc
    unfold findFreeLoop
    rcases hs : findFreeScan inst sc createO with _ | ⟨sc', r⟩
    · simp only []
      split
      · split
        · exact checkExplicit_prime sc it.explicitCheck
        · exact (ih _).trans (checkExplicit_prime sc it.explicitCheck)
      · split
        · exact checkImplicit_prime inst sc it.implicitCheck
        · split
          · split
            · exact checkImplicit_prime inst sc it.implicitCheck
            · exact (ih _).trans (checkImplicit_prime inst sc it.implicitCheck)
          · exact (ih _).trans (checkImplicit_prime inst sc it.implicitCheck)
    · exact findFreeScan_some_prime inst sc createO sc' r hs

theorem findFree_prime (inst : WlDisplayInstance) (sc : WlSwapChain) (o : FindOracle) :
    (eplWlSwapChainFindFreePresentBuffer inst sc o).1.prime = sc.prime := by
  unfold eplWlSwapChainFindFreePresentBuffer
  split
  · simp only []
    split
    · exact checkExplicit_prime sc o.initialExplicit
    · exact (findFreeLoop_prime inst o.createBuf o.iters _).trans
        (checkExplicit_prime sc o.initialExplicit)
  · simp only []
    split
    · exact checkImplicit_prime inst sc o.initialImplicit
    · exact (findFreeLoop_prime inst o.createBuf o.iters _).trans
        (checkImplicit_prime inst sc o.initialImplicit)

theorem swapChainRealloc_keep (inst : WlDisplayInstance) (s : SurfaceState)
    (allow : Bool) (co : SwapChainCreateOracle)
    (h1 : s.force_realloc = false) (h2 : s.pending_width = s.swapchain.width)
    (h3 : s.pending_height = s.swapchain.height) (h4 : s.feedback = none) :
    SwapChainRealloc inst s allow co = some none := by
  unfold SwapChainRealloc
  simp [h1, h2, h3, h4]

/-- C5: with swap interval 0 and a presentation-feedback object still
outstanding from the previous frame, `eplWlSwapBuffers` does not wait for it
(the `WaitForPreviousFrames` dispatch loop is never entered): the feedback
object is destroyed with the current presentation-clock time recorded as the
last presentation timestamp, and the outstanding frame callback and
post-swap sync callback are likewise destroyed — all before the new frame's
commit, as the request log shows. -/
theorem claimC5_swap_interval_zero (inst : WlDisplayInstance) (g : GlobalState)
    (s : SurfaceState) (o : SwapOracle) (bid : Nat) (buf : WlPresentBuffer)
    (hw : s.native_window = true)
    (hint : s.swap_interval = 0)
    (hfb : s.presentation_feedback = true)
    (hfc : s.frame_callback = true)
    (hls : s.last_swap_sync = true)
    (hclock : o.clock_ok = true)
    (hpend : o.pending_events = [])
    (hforce : s.force_realloc = false)
    (hwd : s.pending_width = s.swapchain.width)
    (hht : s.pending_height = s.swapchain.height)
    (hfbk : s.feedback = none)
    (hprime : s.swapchain.prime = true)
    (hpf : (eplWlSwapChainFindFreePresentBuffer inst s.swapchain o.primeFind).2
            = .found bid)
    (hfindbuf : findBuf (eplWlSwapChainFindFreePresentBuffer inst s.swapchain
            o.primeFind).1 bid = some buf)
    (hblit : o.blit_ok = true)
    (hnf : inst.supports_native_fence = false)
    (hso : s.surface_syncobj = false)
    (hfifo : s.fifo = true)
    (hsync : o.sync_ok = true) :
    (eplWlSwapBuffers inst g s [] o).log
      = [.dispatchPending, .destroyFeedback, .destroyFrameCallback, .destroySwapSync,
         .damageFull, .attach bid, .setBarrier, .commit, .sync, .flush] ∧
    (eplWlSwapBuffers inst g s [] o).s.last_present_timestamp = o.now ∧
    (eplWlSwapBuffers inst g s [] o).s.presentation_feedback = false ∧
    (eplWlSwapBuffers inst g s [] o).success = true ∧
    WlRequest.blockingDispatch ∉ (eplWlSwapBuffers inst g s [] o).log := by
  unfold eplWlSwapBuffers
  simp [swapChainRealloc_keep, SyncRendering, DiscardPresentationFeedback,
    SetWindowSwapchain, setStatus_prime, setBuf_prime, findFree_prime,
    hw, hpend, hint, hprime, hpf, hfindbuf,
    hblit, hfb, hfc, hls, hclock, hnf, hso, hfifo, hsync, hforce, hwd, hht, hfbk]

/-- Witness for C5 at a concrete surface: swap interval 0, all three pacing
objects outstanding, PRIME swapchain with a free linear buffer. -/
theorem claimC5_swap_interval_zero_witness :
    (eplWlSwapBuffers ⟨false, false, false, [], false⟩ ⟨true⟩
        ⟨true, 0, 0, 0, 0, 64, 64,
          ⟨64, 64, 1, 1, 0, true, [⟨1, 2, 5, .IDLE, ⟨0⟩, 0⟩], none, 9⟩,
          false, true, true, true, 0, 16666666, true, false, false, false,
          1, 1, [], [], none⟩
        []
        ⟨[], ⟨true, true, true, 0, true, true, 0, 0, ⟨true, true, true, 0⟩⟩,
          ⟨⟨.timedOut, false⟩, ⟨true, [], fun _ => false, .timedOut⟩,
            ⟨true, true, 9, 7, ⟨true, true, true, 5⟩⟩, []⟩,
          true, ⟨true, true, ⟨true, true, true⟩, .ok⟩, [], true, 42, true, true, true,
          ⟨⟨.timedOut, false⟩, ⟨true, [], fun _ => false, .timedOut⟩,
            ⟨true, true, 9, 7, ⟨true, true, true, 5⟩⟩, []⟩,
          true, true⟩).log
      = [.dispatchPending, .destroyFeedback, .destroyFrameCallback, .destroySwapSync,
         .damageFull, .attach 1, .setBarrier, .commit, .sync, .flush] ∧
    (eplWlSwapBuffers ⟨false, false, false, [], false⟩ ⟨true⟩
        ⟨true, 0, 0, 0, 0, 64, 64,
          ⟨64, 64, 1, 1, 0, true, [⟨1, 2, 5, .IDLE, ⟨0⟩, 0⟩], none, 9⟩,
          false, true, true, true, 0, 16666666, true, false, false, false,
          1, 1, [], [], none⟩
        []
        ⟨[], ⟨true, true, true, 0, true, true, 0, 0, ⟨true, true, true, 0⟩⟩,
          ⟨⟨.timedOut, false⟩, ⟨true, [], fun _ => false, .timedOut⟩,
            ⟨true, true, 9, 7, ⟨true, true, true, 5⟩⟩, []⟩,
          true, ⟨true, true, ⟨true, true, true⟩, .ok⟩, [], true, 42, true, true, true,
          ⟨⟨.timedOut, false⟩, ⟨true, [], fun _ => false, .timedOut⟩,
            ⟨true, true, 9, 7, ⟨true, true, true, 5⟩⟩, []⟩,
          true, true⟩).s.last_present_timestamp = 42 :=
  ⟨(claimC5_swap_interval_zero ⟨false, false, false, [], false⟩ ⟨true⟩ _ _ 1
      ⟨1, 2, 5, .IDLE, ⟨0⟩, 0⟩ rfl rfl rfl rfl rfl rfl rfl rfl rfl rfl rfl rfl
      (by decide) (by decide) rfl rfl rfl rfl rfl).1,
   (claimC5_swap_interval_zero ⟨false, false, false, [], false⟩ ⟨true⟩ _ _ 1
      ⟨1, 2, 5, .IDLE, ⟨0⟩, 0⟩ rfl rfl rfl rfl rfl rfl rfl rfl rfl rfl rfl rfl
      (by decide) (by decide) rfl rfl rfl rfl rfl).2.1⟩

/-- Witness for C6: a tranche_formats event hitting a failed allocation sets the
error flag; a session with the error flag set compiles to a null result; a
session whose format-table mmap failed compiles to a null result. -/
theorem claimC6_accumulation_errors_witness :
    (OnDefaultFeedbackTrancheFormats ⟨false, [⟨1, 2⟩], 0, 0, 0, [], [], false⟩
        false [5]).error = true ∧
    FinishDefaultFeedback (fun _ => true) true ⟨true, [], 0, 0, 0, [], [], false⟩ = none ∧
    eplWlDmaBufFeedbackGetDefault (fun _ => true) [.formatTable none] true true = none :=
  ⟨(claimC6_accumulation_errors ⟨false, [⟨1, 2⟩], 0, 0, 0, [], [], false⟩ [5]
      (fun _ => true) true true [.formatTable none] true).1 rfl (by decide) (by decide),
   (claimC6_accumulation_errors ⟨true, [], 0, 0, 0, [], [], false⟩ [5]
      (fun _ => true) true true [.formatTable none] true).2.2.2.1 rfl,
   (claimC6_accumulation_errors ⟨true, [], 0, 0, 0, [], [], false⟩ [5]
      (fun _ => true) true true [.formatTable none] true).2.2.2.2.2 (by decide)⟩
